import Mathlib

/-!
uDMA scatter-gather task entries (`MWare/driverlib/udma.h`).

A shallow embedding of the `uDMATaskStructEntry` initialiser macro and of the
constants it is used with.  The macro's parameters are `unsigned long` values
and `void *` addresses of the Cortex-M3 core, both 32 bits wide; they are
modelled as natural numbers, and every C operator that can leave the 32-bit
range (`<<`, `-`, pointer indexing) is reduced modulo `2 ^ 32` explicitly.
-/

namespace UDMA

/-! ## Constants of `udma.h` -/

def UDMA_MODE_STOP : Nat := 0x00000000
def UDMA_MODE_BASIC : Nat := 0x00000001
def UDMA_MODE_AUTO : Nat := 0x00000002
def UDMA_MODE_PINGPONG : Nat := 0x00000003
def UDMA_MODE_MEM_SCATTER_GATHER : Nat := 0x00000004
def UDMA_MODE_PER_SCATTER_GATHER : Nat := 0x00000006
def UDMA_MODE_ALT_SELECT : Nat := 0x00000001

def UDMA_DST_INC_8 : Nat := 0x00000000
def UDMA_DST_INC_16 : Nat := 0x40000000
def UDMA_DST_INC_32 : Nat := 0x80000000
def UDMA_DST_INC_NONE : Nat := 0xc0000000
def UDMA_SRC_INC_8 : Nat := 0x00000000
def UDMA_SRC_INC_16 : Nat := 0x04000000
def UDMA_SRC_INC_32 : Nat := 0x08000000
def UDMA_SRC_INC_NONE : Nat := 0x0c000000
def UDMA_SIZE_8 : Nat := 0x00000000
def UDMA_SIZE_16 : Nat := 0x11000000
def UDMA_SIZE_32 : Nat := 0x22000000
def UDMA_ARB_1 : Nat := 0x00000000
def UDMA_ARB_2 : Nat := 0x00004000
def UDMA_ARB_4 : Nat := 0x00008000
def UDMA_ARB_8 : Nat := 0x0000c000
def UDMA_ARB_16 : Nat := 0x00010000
def UDMA_ARB_32 : Nat := 0x00014000
def UDMA_ARB_64 : Nat := 0x00018000
def UDMA_ARB_128 : Nat := 0x0001c000
def UDMA_ARB_256 : Nat := 0x00020000
def UDMA_ARB_512 : Nat := 0x00024000
def UDMA_ARB_1024 : Nat := 0x00028000
def UDMA_NEXT_USEBURST : Nat := 0x00000008

/-! ## 32-bit machine arithmetic -/

/-- Number of values of an `unsigned long` (and of an address): `2 ^ 32`. -/
def ULONG_RANGE : Nat := 4294967296

/-- C `a << b` on `unsigned long`: the bits shifted past bit 31 are lost.  The
shift amounts of the valid increment encodings are at most 3; an amount of 32
or more, which only an invalid increment can give, leaves 0. -/
def shl32 (a b : Nat) : Nat := (a <<< b) % ULONG_RANGE

/-- C `a - b` on `unsigned long`: the difference wraps modulo `2 ^ 32`. -/
def sub32 (a b : Nat) : Nat := (a % ULONG_RANGE + ULONG_RANGE - b % ULONG_RANGE) % ULONG_RANGE

/-- C `&((unsigned char *)p)[i]`: the address `i` bytes after `p`, in the
32-bit address space. -/
def byteIndex (p i : Nat) : Nat := (p + i) % ULONG_RANGE

/-! ## The channel control table entry and the macro -/

/-- An entry of the channel control table (`tDMAControlTable`); the two
pointer fields are kept as plain addresses. -/
structure tDMAControlTable where
  pvSrcEndAddr : Nat
  pvDstEndAddr : Nat
  ulControl : Nat
  ulSpare : Nat
deriving DecidableEq, Repr

/-- The initialiser built by the macro `uDMATaskStructEntry`: the four
expressions of its brace list, in order. -/
def uDMATaskStructEntry (ulTransferCount ulItemSize ulSrcIncrement pvSrcAddr
    ulDstIncrement pvDstAddr ulArbSize ulMode : Nat) : tDMAControlTable where
  pvSrcEndAddr :=
    if ulSrcIncrement = UDMA_SRC_INC_NONE then pvSrcAddr
    else byteIndex pvSrcAddr (sub32 (shl32 ulTransferCount (ulSrcIncrement >>> 26)) 1)
  pvDstEndAddr :=
    if ulDstIncrement = UDMA_DST_INC_NONE then pvDstAddr
    else byteIndex pvDstAddr (sub32 (shl32 ulTransferCount (ulDstIncrement >>> 30)) 1)
  ulControl :=
    ulSrcIncrement ||| ulDstIncrement ||| ulItemSize ||| ulArbSize |||
    shl32 (sub32 ulTransferCount 1) 4 |||
    (if ulMode = UDMA_MODE_MEM_SCATTER_GATHER ∨ ulMode = UDMA_MODE_PER_SCATTER_GATHER
      then ulMode ||| UDMA_MODE_ALT_SELECT else ulMode)
  ulSpare := 0

/-! ## Parameter values the macro's documentation allows -/

/-- Item sizes: `UDMA_SIZE_8`, `UDMA_SIZE_16`, `UDMA_SIZE_32`. -/
def validItemSizes : List Nat := [UDMA_SIZE_8, UDMA_SIZE_16, UDMA_SIZE_32]

/-- Source increments, `UDMA_SRC_INC_NONE` included. -/
def validSrcIncrements : List Nat :=
  [UDMA_SRC_INC_8, UDMA_SRC_INC_16, UDMA_SRC_INC_32, UDMA_SRC_INC_NONE]

/-- Destination increments, `UDMA_DST_INC_NONE` included. -/
def validDstIncrements : List Nat :=
  [UDMA_DST_INC_8, UDMA_DST_INC_16, UDMA_DST_INC_32, UDMA_DST_INC_NONE]

/-- Arbitration sizes `UDMA_ARB_1` up to `UDMA_ARB_1024`. -/
def validArbSizes : List Nat :=
  [UDMA_ARB_1, UDMA_ARB_2, UDMA_ARB_4, UDMA_ARB_8, UDMA_ARB_16, UDMA_ARB_32,
   UDMA_ARB_64, UDMA_ARB_128, UDMA_ARB_256, UDMA_ARB_512, UDMA_ARB_1024]

/-- The six transfer modes `UDMA_MODE_STOP` .. `UDMA_MODE_PER_SCATTER_GATHER`. -/
def validModes : List Nat :=
  [UDMA_MODE_STOP, UDMA_MODE_BASIC, UDMA_MODE_AUTO, UDMA_MODE_PINGPONG,
   UDMA_MODE_MEM_SCATTER_GATHER, UDMA_MODE_PER_SCATTER_GATHER]

/-- The modes that are not scatter-gather modes. -/
def nonScatterGatherModes : List Nat :=
  [UDMA_MODE_STOP, UDMA_MODE_BASIC, UDMA_MODE_AUTO, UDMA_MODE_PINGPONG]

/-! ## The wording of the specification, for comparison -/

/-- The mode field as the specification words it: the mode itself, with the
alternate-select bit added for the two scatter-gather modes. -/
def specModeField (mode : Nat) : Nat :=
  if mode = UDMA_MODE_MEM_SCATTER_GATHER then mode ||| UDMA_MODE_ALT_SELECT
  else if mode = UDMA_MODE_PER_SCATTER_GATHER then mode ||| UDMA_MODE_ALT_SELECT
  else mode

/-- The control word as the specification words it, on 32-bit words. -/
def specControlWord (count itemSize srcIncrement dstIncrement arbitrationSize mode : Nat) : Nat :=
  srcIncrement ||| dstIncrement ||| itemSize ||| arbitrationSize |||
    shl32 (sub32 count 1) 4 ||| specModeField mode

/-! ## Arbitration sizes, channel attributes and structure indices -/

/-- The arbitration-size constants, each paired with the burst length that its
name carries. -/
def arbSizeTable : List (Nat × Nat) :=
  [(1, UDMA_ARB_1), (2, UDMA_ARB_2), (4, UDMA_ARB_4), (8, UDMA_ARB_8), (16, UDMA_ARB_16),
   (32, UDMA_ARB_32), (64, UDMA_ARB_64), (128, UDMA_ARB_128), (256, UDMA_ARB_256),
   (512, UDMA_ARB_512), (1024, UDMA_ARB_1024)]

def UDMA_ATTR_USEBURST : Nat := 0x00000001
def UDMA_ATTR_ALTSELECT : Nat := 0x00000002
def UDMA_ATTR_HIGH_PRIORITY : Nat := 0x00000004
def UDMA_ATTR_REQMASK : Nat := 0x00000008
def UDMA_ATTR_ALL : Nat := 0x0000000F

def UDMA_PRI_SELECT : Nat := 0x00000000
def UDMA_ALT_SELECT : Nat := 0x00000020

/-- The four single attribute flags. -/
def attrFlags : List Nat :=
  [UDMA_ATTR_USEBURST, UDMA_ATTR_ALTSELECT, UDMA_ATTR_HIGH_PRIORITY, UDMA_ATTR_REQMASK]

/-- The flag word of a subset of the four attributes: the OR of the flags of
the attributes chosen. -/
def attrWord (useBurst altSelect highPriority reqMask : Bool) : Nat :=
  (if useBurst then UDMA_ATTR_USEBURST else 0) |||
  (if altSelect then UDMA_ATTR_ALTSELECT else 0) |||
  (if highPriority then UDMA_ATTR_HIGH_PRIORITY else 0) |||
  (if reqMask then UDMA_ATTR_REQMASK else 0)

/-- The index of a channel control structure: the channel number OR-ed with
`UDMA_PRI_SELECT` or `UDMA_ALT_SELECT`. -/
def channelStructIndex (ulChannelNum ulSelect : Nat) : Nat := ulChannelNum ||| ulSelect

/-- C `~a` on `unsigned long`: the complement within 32 bits. -/
def not32 (a : Nat) : Nat := 0xFFFFFFFF ^^^ (a % ULONG_RANGE)

/-! ## The channel operations -/

/-- Modelled from the spec: the state behind the channel operations of the
channel table registry (section 4.2 of the specification).  `udma.h` only
declares `uDMAChannelEnable`, `uDMAChannelDisable`, `uDMAChannelIsEnabled` and
the `uDMAChannelAttribute*` functions; their bodies are not among the sources.
The state is the per-channel enable bit of the hardware, bit `n` of a 32-bit
word for channel `n` (channels are numbered 0..31), and for each channel its
attribute set, a bit-set of `UDMA_ATTR_*` flags. -/
structure uDMAChannelRegs where
  ulEnable : Nat
  attrOf : Nat → Nat

/-- Modelled from the spec: `uDMAChannelEnable`, whose body is missing, sets
the per-channel enable bit. -/
def uDMAChannelEnable (r : uDMAChannelRegs) (ulChannelNum : Nat) : uDMAChannelRegs :=
  { r with ulEnable := r.ulEnable ||| shl32 1 ulChannelNum }

/-- Modelled from the spec: `uDMAChannelDisable`, whose body is missing, clears
the per-channel enable bit. -/
def uDMAChannelDisable (r : uDMAChannelRegs) (ulChannelNum : Nat) : uDMAChannelRegs :=
  { r with ulEnable := r.ulEnable &&& not32 (shl32 1 ulChannelNum) }

/-- Modelled from the spec: `uDMAChannelIsEnabled`, whose body is missing,
reads the current enable state of the channel. -/
def uDMAChannelIsEnabled (r : uDMAChannelRegs) (ulChannelNum : Nat) : Bool :=
  r.ulEnable &&& shl32 1 ulChannelNum != 0

/-- Modelled from the spec: `uDMAChannelAttributeEnable`, whose body is
missing, adds the attributes of `ulAttr`, a set drawn from the four
`UDMA_ATTR_*` flags, to the attribute set of the channel. -/
def uDMAChannelAttributeEnable (r : uDMAChannelRegs) (ulChannelNum ulAttr : Nat) :
    uDMAChannelRegs :=
  { r with attrOf := fun n =>
      if n = ulChannelNum then r.attrOf n ||| (ulAttr &&& UDMA_ATTR_ALL) else r.attrOf n }

/-- Modelled from the spec: `uDMAChannelAttributeDisable`, whose body is
missing, removes the attributes of `ulAttr` from the attribute set of the
channel. -/
def uDMAChannelAttributeDisable (r : uDMAChannelRegs) (ulChannelNum ulAttr : Nat) :
    uDMAChannelRegs :=
  { r with attrOf := fun n =>
      if n = ulChannelNum then r.attrOf n &&& not32 (ulAttr &&& UDMA_ATTR_ALL) else r.attrOf n }

/-- Modelled from the spec: `uDMAChannelAttributeGet`, whose body is missing,
reports the attribute set of the channel. -/
def uDMAChannelAttributeGet (r : uDMAChannelRegs) (ulChannelNum : Nat) : Nat :=
  r.attrOf ulChannelNum

/-! ## Decoding a control word -/

/-- The mode constant behind a mode field: the alternate-select bit that the
entry initialiser adds to the scatter-gather modes is taken off again. -/
def modeOfField (field : Nat) : Nat :=
  if field = UDMA_MODE_MEM_SCATTER_GATHER ||| UDMA_MODE_ALT_SELECT then
    UDMA_MODE_MEM_SCATTER_GATHER
  else if field = UDMA_MODE_PER_SCATTER_GATHER ||| UDMA_MODE_ALT_SELECT then
    UDMA_MODE_PER_SCATTER_GATHER
  else field

/-- The parameters (count, item size, source increment, destination increment,
arbitration size, mode) read back from the fields of a control word. -/
def decodeControl (ulControl : Nat) : Nat × Nat × Nat × Nat × Nat × Nat :=
  ((ulControl >>> 4 &&& 0x3FF) + 1, ulControl &&& 0x33000000, ulControl &&& 0x0C000000,
   ulControl &&& 0xC0000000, ulControl &&& 0x0003C000, modeOfField (ulControl &&& 7))

/-! ## End-address offsets and width encodings -/

/-- The byte offset that the entry initialiser adds to the source start
address: its index expression `(count << (srcIncrement >> 26)) - 1`, and
nothing when the increment is `UDMA_SRC_INC_NONE`. -/
def srcEndOffset (ulTransferCount ulSrcIncrement : Nat) : Nat :=
  if ulSrcIncrement = UDMA_SRC_INC_NONE then 0
  else sub32 (shl32 ulTransferCount (ulSrcIncrement >>> 26)) 1

/-- The byte offset that the entry initialiser adds to the destination start
address: its index expression `(count << (dstIncrement >> 30)) - 1`, and
nothing when the increment is `UDMA_DST_INC_NONE`. -/
def dstEndOffset (ulTransferCount ulDstIncrement : Nat) : Nat :=
  if ulDstIncrement = UDMA_DST_INC_NONE then 0
  else sub32 (shl32 ulTransferCount (ulDstIncrement >>> 30)) 1

/-- The three widths in bits, each with its item-size, source-increment and
destination-increment constant. -/
def widthTable : List (Nat × Nat × Nat × Nat) :=
  [(8, UDMA_SIZE_8, UDMA_SRC_INC_8, UDMA_DST_INC_8),
   (16, UDMA_SIZE_16, UDMA_SRC_INC_16, UDMA_DST_INC_16),
   (32, UDMA_SIZE_32, UDMA_SRC_INC_32, UDMA_DST_INC_32)]

end UDMA

namespace CAN

/-! ## Message-object flags of `can.h` -/

def MSG_OBJ_TX_INT_ENABLE : Nat := 0x00000001
def MSG_OBJ_RX_INT_ENABLE : Nat := 0x00000002
def MSG_OBJ_EXTENDED_ID : Nat := 0x00000004
def MSG_OBJ_USE_ID_FILTER : Nat := 0x00000008
def MSG_OBJ_NEW_DATA : Nat := 0x00000080
def MSG_OBJ_DATA_LOST : Nat := 0x00000100
def MSG_OBJ_USE_DIR_FILTER : Nat := 0x00000010 ||| MSG_OBJ_USE_ID_FILTER
def MSG_OBJ_USE_EXT_FILTER : Nat := 0x00000020 ||| MSG_OBJ_USE_ID_FILTER
def MSG_OBJ_REMOTE_FRAME : Nat := 0x00000040
def MSG_OBJ_FIFO : Nat := 0x00000200
def MSG_OBJ_NO_FLAGS : Nat := 0x00000000
def MSG_OBJ_STATUS_MASK : Nat := MSG_OBJ_NEW_DATA ||| MSG_OBJ_DATA_LOST

/-- The configuration flags of a message object: every `MSG_OBJ_*` flag other
than the two status flags. -/
def configFlags : List Nat :=
  [MSG_OBJ_TX_INT_ENABLE, MSG_OBJ_RX_INT_ENABLE, MSG_OBJ_EXTENDED_ID, MSG_OBJ_USE_ID_FILTER,
   MSG_OBJ_USE_DIR_FILTER, MSG_OBJ_USE_EXT_FILTER, MSG_OBJ_REMOTE_FRAME, MSG_OBJ_FIFO]

end CAN

namespace UCRC

/-! ## Register offsets of `hw_ucrc.h` -/

def UCRC_O_CONFIG : Nat := 0x00000000
def UCRC_O_CONTROL : Nat := 0x00000004
def UCRC_O_RES : Nat := 0x00000008

end UCRC

namespace MPU

/-! ## Region flags of `mpu.h` -/

def MPU_RGN_SIZE_32B : Nat := 4 <<< 1
def MPU_RGN_SIZE_64B : Nat := 5 <<< 1
def MPU_RGN_SIZE_128B : Nat := 6 <<< 1
def MPU_RGN_SIZE_256B : Nat := 7 <<< 1
def MPU_RGN_SIZE_512B : Nat := 8 <<< 1
def MPU_RGN_SIZE_1K : Nat := 9 <<< 1
def MPU_RGN_SIZE_2K : Nat := 10 <<< 1
def MPU_RGN_SIZE_4K : Nat := 11 <<< 1
def MPU_RGN_SIZE_8K : Nat := 12 <<< 1
def MPU_RGN_SIZE_16K : Nat := 13 <<< 1
def MPU_RGN_SIZE_32K : Nat := 14 <<< 1
def MPU_RGN_SIZE_64K : Nat := 15 <<< 1
def MPU_RGN_SIZE_128K : Nat := 16 <<< 1
def MPU_RGN_SIZE_256K : Nat := 17 <<< 1
def MPU_RGN_SIZE_512K : Nat := 18 <<< 1
def MPU_RGN_SIZE_1M : Nat := 19 <<< 1
def MPU_RGN_SIZE_2M : Nat := 20 <<< 1
def MPU_RGN_SIZE_4M : Nat := 21 <<< 1
def MPU_RGN_SIZE_8M : Nat := 22 <<< 1
def MPU_RGN_SIZE_16M : Nat := 23 <<< 1
def MPU_RGN_SIZE_32M : Nat := 24 <<< 1
def MPU_RGN_SIZE_64M : Nat := 25 <<< 1
def MPU_RGN_SIZE_128M : Nat := 26 <<< 1
def MPU_RGN_SIZE_256M : Nat := 27 <<< 1
def MPU_RGN_SIZE_512M : Nat := 28 <<< 1
def MPU_RGN_SIZE_1G : Nat := 29 <<< 1
def MPU_RGN_SIZE_2G : Nat := 30 <<< 1
def MPU_RGN_SIZE_4G : Nat := 31 <<< 1

def MPU_RGN_PERM_EXEC : Nat := 0x00000000
def MPU_RGN_PERM_NOEXEC : Nat := 0x10000000
def MPU_RGN_PERM_PRV_NO_USR_NO : Nat := 0x00000000
def MPU_RGN_PERM_PRV_RW_USR_NO : Nat := 0x01000000
def MPU_RGN_PERM_PRV_RW_USR_RO : Nat := 0x02000000
def MPU_RGN_PERM_PRV_RW_USR_RW : Nat := 0x03000000
def MPU_RGN_PERM_PRV_RO_USR_NO : Nat := 0x05000000
def MPU_RGN_PERM_PRV_RO_USR_RO : Nat := 0x06000000

def MPU_SUB_RGN_DISABLE_0 : Nat := 0x00000100
def MPU_SUB_RGN_DISABLE_1 : Nat := 0x00000200
def MPU_SUB_RGN_DISABLE_2 : Nat := 0x00000400
def MPU_SUB_RGN_DISABLE_3 : Nat := 0x00000800
def MPU_SUB_RGN_DISABLE_4 : Nat := 0x00001000
def MPU_SUB_RGN_DISABLE_5 : Nat := 0x00002000
def MPU_SUB_RGN_DISABLE_6 : Nat := 0x00004000
def MPU_SUB_RGN_DISABLE_7 : Nat := 0x00008000

def MPU_RGN_ENABLE : Nat := 1
def MPU_RGN_DISABLE : Nat := 0

/-- The region-size flags in the order of the header, each paired with the
number of bytes that its name carries (K, M and G are powers of 1024). -/
def rgnSizeTable : List (Nat × Nat) :=
  [(32, MPU_RGN_SIZE_32B), (64, MPU_RGN_SIZE_64B), (128, MPU_RGN_SIZE_128B),
   (256, MPU_RGN_SIZE_256B), (512, MPU_RGN_SIZE_512B),
   (1 * 1024, MPU_RGN_SIZE_1K), (2 * 1024, MPU_RGN_SIZE_2K), (4 * 1024, MPU_RGN_SIZE_4K),
   (8 * 1024, MPU_RGN_SIZE_8K), (16 * 1024, MPU_RGN_SIZE_16K), (32 * 1024, MPU_RGN_SIZE_32K),
   (64 * 1024, MPU_RGN_SIZE_64K), (128 * 1024, MPU_RGN_SIZE_128K),
   (256 * 1024, MPU_RGN_SIZE_256K), (512 * 1024, MPU_RGN_SIZE_512K),
   (1 * 1024 * 1024, MPU_RGN_SIZE_1M), (2 * 1024 * 1024, MPU_RGN_SIZE_2M),
   (4 * 1024 * 1024, MPU_RGN_SIZE_4M), (8 * 1024 * 1024, MPU_RGN_SIZE_8M),
   (16 * 1024 * 1024, MPU_RGN_SIZE_16M), (32 * 1024 * 1024, MPU_RGN_SIZE_32M),
   (64 * 1024 * 1024, MPU_RGN_SIZE_64M), (128 * 1024 * 1024, MPU_RGN_SIZE_128M),
   (256 * 1024 * 1024, MPU_RGN_SIZE_256M), (512 * 1024 * 1024, MPU_RGN_SIZE_512M),
   (1 * 1024 * 1024 * 1024, MPU_RGN_SIZE_1G), (2 * 1024 * 1024 * 1024, MPU_RGN_SIZE_2G),
   (4 * 1024 * 1024 * 1024, MPU_RGN_SIZE_4G)]

/-- The region-size flags. -/
def rgnSizeFlags : List Nat := rgnSizeTable.map Prod.snd

/-- The enable flags, `MPU_RGN_ENABLE` and `MPU_RGN_DISABLE`. -/
def rgnEnableFlags : List Nat := [MPU_RGN_ENABLE, MPU_RGN_DISABLE]

/-- The sub-region disable flags, `MPU_SUB_RGN_DISABLE_0` to `_7`. -/
def subRgnFlags : List Nat :=
  [MPU_SUB_RGN_DISABLE_0, MPU_SUB_RGN_DISABLE_1, MPU_SUB_RGN_DISABLE_2, MPU_SUB_RGN_DISABLE_3,
   MPU_SUB_RGN_DISABLE_4, MPU_SUB_RGN_DISABLE_5, MPU_SUB_RGN_DISABLE_6, MPU_SUB_RGN_DISABLE_7]

/-- The permission flags: execute permission and access permission. -/
def rgnPermFlags : List Nat :=
  [MPU_RGN_PERM_EXEC, MPU_RGN_PERM_NOEXEC, MPU_RGN_PERM_PRV_NO_USR_NO,
   MPU_RGN_PERM_PRV_RW_USR_NO, MPU_RGN_PERM_PRV_RW_USR_RO, MPU_RGN_PERM_PRV_RW_USR_RW,
   MPU_RGN_PERM_PRV_RO_USR_NO, MPU_RGN_PERM_PRV_RO_USR_RO]

end MPU

namespace UDMA

/-! ## Auxiliary facts on 32-bit arithmetic and bit fields -/

theorem shiftRight_or (a b k : Nat) : (a ||| b) >>> k = a >>> k ||| b >>> k := by
  apply Nat.eq_of_testBit_eq
  intro i
  simp

theorem field_or (a b k m : Nat) :
    (a ||| b) >>> k &&& m = (a >>> k &&& m) ||| (b >>> k &&& m) := by
  rw [shiftRight_or, Nat.and_distrib_right]

theorem sub32_one {c : Nat} (h1 : 1 ≤ c) (h2 : c < 4294967296) : sub32 c 1 = c - 1 := by
  unfold sub32 ULONG_RANGE
  omega

theorem shl32_small {a k : Nat} (h : a * 2 ^ k < 4294967296) : shl32 a k = a * 2 ^ k := by
  unfold shl32 ULONG_RANGE
  rw [Nat.shiftLeft_eq]
  exact Nat.mod_eq_of_lt h

theorem countField_eq {c : Nat} (h1 : 1 ≤ c) (h2 : c ≤ 1024) :
    shl32 (sub32 c 1) 4 = (c - 1) * 16 := by
  rw [sub32_one h1 (by omega), shl32_small (by norm_num; omega)]
  norm_num

theorem countField_extract {c : Nat} (h1 : 1 ≤ c) (h2 : c ≤ 1024) :
    shl32 (sub32 c 1) 4 >>> 4 &&& 0x3FF = c - 1 := by
  rw [countField_eq h1 h2, Nat.shiftRight_eq_div_pow]
  have h : (c - 1) * 16 / 2 ^ 4 = c - 1 := by norm_num
  rw [h]
  have h3 : (0x3FF : Nat) = 2 ^ 10 - 1 := by norm_num
  rw [h3, Nat.and_pow_two_sub_one_eq_mod]
  exact Nat.mod_eq_of_lt (by norm_num; omega)

theorem srcInc_clear_of_count : ∀ s ∈ validSrcIncrements, s >>> 4 &&& 0x3FF = 0 := by decide

theorem dstInc_clear_of_count : ∀ d ∈ validDstIncrements, d >>> 4 &&& 0x3FF = 0 := by decide

theorem itemSize_clear_of_count : ∀ z ∈ validItemSizes, z >>> 4 &&& 0x3FF = 0 := by decide

theorem arbSize_clear_of_count : ∀ a ∈ validArbSizes, a >>> 4 &&& 0x3FF = 0 := by decide

theorem mode_clear_of_count : ∀ m ∈ validModes,
    (if m = UDMA_MODE_MEM_SCATTER_GATHER ∨ m = UDMA_MODE_PER_SCATTER_GATHER
      then m ||| UDMA_MODE_ALT_SELECT else m) >>> 4 &&& 0x3FF = 0 := by decide

theorem or_one_and_one (x : Nat) : (x ||| 1) &&& 1 = 1 := by
  rw [Nat.and_one_is_mod]
  have h : (x ||| 1) % 2 = 1 := Nat.or_mod_two_eq_one.mpr (Or.inr rfl)
  exact h

theorem endOffset_eq {c k : Nat} (h1 : 1 ≤ c) (h2 : c ≤ 1024) (hk : k ≤ 2) :
    sub32 (shl32 c k) 1 = c * 2 ^ k - 1 := by
  have hp : 2 ^ k ≤ 4 := by
    calc 2 ^ k ≤ 2 ^ 2 := Nat.pow_le_pow_right (by norm_num) hk
      _ = 4 := by norm_num
  have hpos : 0 < 2 ^ k := Nat.pos_pow_of_pos k (by norm_num)
  have hb : c * 2 ^ k ≤ 4096 := by
    calc c * 2 ^ k ≤ 1024 * 4 := Nat.mul_le_mul h2 hp
      _ = 4096 := by norm_num
  have hl : 1 ≤ c * 2 ^ k := Nat.mul_pos h1 hpos
  rw [shl32_small (by omega), sub32_one hl (by omega)]

theorem srcEnd_eq (count itemSize srcInc srcStart dstInc dstStart arb mode k : Nat)
    (hc1 : 1 ≤ count) (hc2 : count ≤ 1024) (hk : srcInc >>> 26 = k) (hk2 : k ≤ 2)
    (hn : srcInc ≠ UDMA_SRC_INC_NONE) :
    (uDMATaskStructEntry count itemSize srcInc srcStart dstInc dstStart arb mode).pvSrcEndAddr
      = (srcStart + count * 2 ^ k - 1) % 4294967296 := by
  have hp : 1 ≤ count * 2 ^ k := Nat.mul_pos hc1 (Nat.pos_pow_of_pos k (by norm_num))
  simp only [uDMATaskStructEntry, if_neg hn, hk, endOffset_eq hc1 hc2 hk2, byteIndex,
    ULONG_RANGE, Nat.add_sub_assoc hp]

theorem dstEnd_eq (count itemSize srcInc srcStart dstInc dstStart arb mode k : Nat)
    (hc1 : 1 ≤ count) (hc2 : count ≤ 1024) (hk : dstInc >>> 30 = k) (hk2 : k ≤ 2)
    (hn : dstInc ≠ UDMA_DST_INC_NONE) :
    (uDMATaskStructEntry count itemSize srcInc srcStart dstInc dstStart arb mode).pvDstEndAddr
      = (dstStart + count * 2 ^ k - 1) % 4294967296 := by
  have hp : 1 ≤ count * 2 ^ k := Nat.mul_pos hc1 (Nat.pos_pow_of_pos k (by norm_num))
  simp only [uDMATaskStructEntry, if_neg hn, hk, endOffset_eq hc1 hc2 hk2, byteIndex,
    ULONG_RANGE, Nat.add_sub_assoc hp]

theorem mod_word_of_le {a b : Nat} (h : a + b ≤ 4294967296) :
    (a + b - 1) % 4294967296 = a + b - 1 :=
  Nat.mod_eq_of_lt (by omega)

/-! ## End addresses -/

/-- C1: for a count in [1,1024] and 8-, 16- or 32-bit increments, the macro's
shifts `srcIncrement >> 26` and `dstIncrement >> 30` are 0, 1, 2 for the three
widths, and each end address is `start + (count << shift) - 1` in the 32-bit
address space; it is that number itself whenever the buffer ends inside the
address space. -/
theorem uDMATaskStructEntry_end_addresses
    (count itemSize srcInc srcStart dstInc dstStart arb mode s d : Nat)
    (hc1 : 1 ≤ count) (hc2 : count ≤ 1024)
    (hs : (srcInc, s) ∈ [(UDMA_SRC_INC_8, 0), (UDMA_SRC_INC_16, 1), (UDMA_SRC_INC_32, 2)])
    (hd : (dstInc, d) ∈ [(UDMA_DST_INC_8, 0), (UDMA_DST_INC_16, 1), (UDMA_DST_INC_32, 2)]) :
    srcInc >>> 26 = s ∧ dstInc >>> 30 = d ∧
    (uDMATaskStructEntry count itemSize srcInc srcStart dstInc dstStart arb mode).pvSrcEndAddr
      = (srcStart + (count <<< s) - 1) % 4294967296 ∧
    (uDMATaskStructEntry count itemSize srcInc srcStart dstInc dstStart arb mode).pvDstEndAddr
      = (dstStart + (count <<< d) - 1) % 4294967296 ∧
    (srcStart + (count <<< s) ≤ 4294967296 →
      (uDMATaskStructEntry count itemSize srcInc srcStart dstInc dstStart arb mode).pvSrcEndAddr
        = srcStart + (count <<< s) - 1) ∧
    (dstStart + (count <<< d) ≤ 4294967296 →
      (uDMATaskStructEntry count itemSize srcInc srcStart dstInc dstStart arb mode).pvDstEndAddr
        = dstStart + (count <<< d) - 1) := by
  have hsk : srcInc >>> 26 = s ∧ s ≤ 2 ∧ srcInc ≠ UDMA_SRC_INC_NONE := by
    simp only [List.mem_cons, Prod.mk.injEq, List.mem_singleton, List.not_mem_nil, or_false] at hs
    rcases hs with ⟨h, rfl⟩ | ⟨h, rfl⟩ | ⟨h, rfl⟩ <;> subst h <;> decide
  have hdk : dstInc >>> 30 = d ∧ d ≤ 2 ∧ dstInc ≠ UDMA_DST_INC_NONE := by
    simp only [List.mem_cons, Prod.mk.injEq, List.mem_singleton, List.not_mem_nil, or_false] at hd
    rcases hd with ⟨h, rfl⟩ | ⟨h, rfl⟩ | ⟨h, rfl⟩ <;> subst h <;> decide
  obtain ⟨hs1, hs2, hs3⟩ := hsk
  obtain ⟨hd1, hd2, hd3⟩ := hdk
  have esrc := srcEnd_eq count itemSize srcInc srcStart dstInc dstStart arb mode s
    hc1 hc2 hs1 hs2 hs3
  have edst := dstEnd_eq count itemSize srcInc srcStart dstInc dstStart arb mode d
    hc1 hc2 hd1 hd2 hd3
  simp only [Nat.shiftLeft_eq]
  refine ⟨hs1, hd1, esrc, edst, ?_, ?_⟩
  · intro h
    rw [esrc, mod_word_of_le h]
  · intro h
    rw [edst, mod_word_of_le h]

/-- Witness for C1: 256 items, 32-bit source increment from 0x2000, 16-bit
destination increment from 0x4000. -/
theorem uDMATaskStructEntry_end_addresses_witness :
    UDMA_SRC_INC_32 >>> 26 = 2 ∧ UDMA_DST_INC_16 >>> 30 = 1 ∧
    (uDMATaskStructEntry 256 UDMA_SIZE_32 UDMA_SRC_INC_32 0x2000 UDMA_DST_INC_16 0x4000
      UDMA_ARB_8 UDMA_MODE_BASIC).pvSrcEndAddr = (0x2000 + (256 <<< 2) - 1) % 4294967296 ∧
    (uDMATaskStructEntry 256 UDMA_SIZE_32 UDMA_SRC_INC_32 0x2000 UDMA_DST_INC_16 0x4000
      UDMA_ARB_8 UDMA_MODE_BASIC).pvDstEndAddr = (0x4000 + (256 <<< 1) - 1) % 4294967296 ∧
    (0x2000 + (256 <<< 2) ≤ 4294967296 →
      (uDMATaskStructEntry 256 UDMA_SIZE_32 UDMA_SRC_INC_32 0x2000 UDMA_DST_INC_16 0x4000
        UDMA_ARB_8 UDMA_MODE_BASIC).pvSrcEndAddr = 0x2000 + (256 <<< 2) - 1) ∧
    (0x4000 + (256 <<< 1) ≤ 4294967296 →
      (uDMATaskStructEntry 256 UDMA_SIZE_32 UDMA_SRC_INC_32 0x2000 UDMA_DST_INC_16 0x4000
        UDMA_ARB_8 UDMA_MODE_BASIC).pvDstEndAddr = 0x4000 + (256 <<< 1) - 1) :=
  uDMATaskStructEntry_end_addresses 256 UDMA_SIZE_32 UDMA_SRC_INC_32 0x2000 UDMA_DST_INC_16
    0x4000 UDMA_ARB_8 UDMA_MODE_BASIC 2 1 (by decide) (by decide) (by decide) (by decide)

/-- C2: with `UDMA_SRC_INC_NONE` the source end address is the given source
start address, and with `UDMA_DST_INC_NONE` the destination end address is the
given destination start address, whatever the count and the other
parameters. -/
theorem uDMATaskStructEntry_inc_none
    (count itemSize srcInc srcStart dstInc dstStart arb mode : Nat) :
    (uDMATaskStructEntry count itemSize UDMA_SRC_INC_NONE srcStart dstInc dstStart arb
      mode).pvSrcEndAddr = srcStart ∧
    (uDMATaskStructEntry count itemSize srcInc srcStart UDMA_DST_INC_NONE dstStart arb
      mode).pvDstEndAddr = dstStart := by
  constructor <;> simp [uDMATaskStructEntry]

/-! ## The control word -/

theorem shl32_four_low (x m : Nat) (hm : m ≤ 15) : shl32 x 4 &&& m = 0 := by
  apply Nat.eq_of_testBit_eq
  intro i
  have h4 : (4294967296 : Nat) = 2 ^ 32 := by norm_num
  simp only [shl32, ULONG_RANGE, h4, Nat.testBit_and, Nat.testBit_mod_two_pow,
    Nat.testBit_shiftLeft, Nat.zero_testBit]
  by_cases hi : 4 ≤ i
  · have : m.testBit i = false :=
      Nat.testBit_lt_two_pow (lt_of_le_of_lt hm (lt_of_lt_of_le (by norm_num)
        (Nat.pow_le_pow_right (by norm_num : 0 < 2) hi)))
    simp [this]
  · simp [hi]

theorem srcInc_clear_of_mode : ∀ s ∈ validSrcIncrements, s &&& 7 = 0 := by decide

theorem dstInc_clear_of_mode : ∀ d ∈ validDstIncrements, d &&& 7 = 0 := by decide

theorem itemSize_clear_of_mode : ∀ z ∈ validItemSizes, z &&& 7 = 0 := by decide

theorem arbSize_clear_of_mode : ∀ a ∈ validArbSizes, a &&& 7 = 0 := by decide

/-- C3: for a count in [1,1024] and valid item size, increments, arbitration
size and mode, bits 4..13 of the control word hold `count - 1`, and each of the
other fields is zero on those bits. -/
theorem uDMATaskStructEntry_count_field
    (count itemSize srcInc srcStart dstInc dstStart arb mode : Nat)
    (hc1 : 1 ≤ count) (hc2 : count ≤ 1024)
    (hz : itemSize ∈ validItemSizes) (hs : srcInc ∈ validSrcIncrements)
    (hd : dstInc ∈ validDstIncrements) (ha : arb ∈ validArbSizes) (hm : mode ∈ validModes) :
    (uDMATaskStructEntry count itemSize srcInc srcStart dstInc dstStart arb mode).ulControl
        >>> 4 &&& 0x3FF = count - 1 ∧
    srcInc >>> 4 &&& 0x3FF = 0 ∧ dstInc >>> 4 &&& 0x3FF = 0 ∧ itemSize >>> 4 &&& 0x3FF = 0 ∧
    arb >>> 4 &&& 0x3FF = 0 ∧
    (if mode = UDMA_MODE_MEM_SCATTER_GATHER ∨ mode = UDMA_MODE_PER_SCATTER_GATHER
      then mode ||| UDMA_MODE_ALT_SELECT else mode) >>> 4 &&& 0x3FF = 0 := by
  refine ⟨?_, srcInc_clear_of_count _ hs, dstInc_clear_of_count _ hd,
    itemSize_clear_of_count _ hz, arbSize_clear_of_count _ ha, mode_clear_of_count _ hm⟩
  simp only [uDMATaskStructEntry, field_or, srcInc_clear_of_count _ hs,
    dstInc_clear_of_count _ hd, itemSize_clear_of_count _ hz, arbSize_clear_of_count _ ha,
    mode_clear_of_count _ hm, countField_extract hc1 hc2, Nat.zero_or, Nat.or_zero]

/-- Witness for C3: 1024 items of 16 bits, no source increment, arbitration
size 1024, peripheral scatter-gather. -/
theorem uDMATaskStructEntry_count_field_witness :
    (uDMATaskStructEntry 1024 UDMA_SIZE_16 UDMA_SRC_INC_NONE 0x20000000 UDMA_DST_INC_16
      0x20001000 UDMA_ARB_1024 UDMA_MODE_PER_SCATTER_GATHER).ulControl
        >>> 4 &&& 0x3FF = 1024 - 1 ∧
    UDMA_SRC_INC_NONE >>> 4 &&& 0x3FF = 0 ∧ UDMA_DST_INC_16 >>> 4 &&& 0x3FF = 0 ∧
    UDMA_SIZE_16 >>> 4 &&& 0x3FF = 0 ∧ UDMA_ARB_1024 >>> 4 &&& 0x3FF = 0 ∧
    (if UDMA_MODE_PER_SCATTER_GATHER = UDMA_MODE_MEM_SCATTER_GATHER ∨
        UDMA_MODE_PER_SCATTER_GATHER = UDMA_MODE_PER_SCATTER_GATHER
      then UDMA_MODE_PER_SCATTER_GATHER ||| UDMA_MODE_ALT_SELECT
      else UDMA_MODE_PER_SCATTER_GATHER) >>> 4 &&& 0x3FF = 0 :=
  uDMATaskStructEntry_count_field 1024 UDMA_SIZE_16 UDMA_SRC_INC_NONE 0x20000000
    UDMA_DST_INC_16 0x20001000 UDMA_ARB_1024 UDMA_MODE_PER_SCATTER_GATHER
    (by decide) (by decide) (by decide) (by decide) (by decide) (by decide) (by decide)

theorem modeField_eq_spec (mode : Nat) :
    (if mode = UDMA_MODE_MEM_SCATTER_GATHER ∨ mode = UDMA_MODE_PER_SCATTER_GATHER
      then mode ||| UDMA_MODE_ALT_SELECT else mode) = specModeField mode := by
  unfold specModeField
  by_cases h1 : mode = UDMA_MODE_MEM_SCATTER_GATHER
  · simp [h1]
  · by_cases h2 : mode = UDMA_MODE_PER_SCATTER_GATHER
    · simp [h2]
    · simp [h1, h2]

/-- C4: for all inputs the control word is
`srcIncrement | dstIncrement | itemSize | arbitrationSize | ((count - 1) << 4) | modeField`
on 32-bit words, where `modeField` is the mode with the alternate-select bit
added for the two scatter-gather modes and the mode itself otherwise; for a
count from 1 to 2^28 the subtraction and the shift do not wrap, and the count
term is the plain number `(count - 1) << 4`. -/
theorem uDMATaskStructEntry_control_word
    (count itemSize srcInc srcStart dstInc dstStart arb mode : Nat) :
    (uDMATaskStructEntry count itemSize srcInc srcStart dstInc dstStart arb mode).ulControl
      = specControlWord count itemSize srcInc dstInc arb mode ∧
    (1 ≤ count → count ≤ 268435456 →
      (uDMATaskStructEntry count itemSize srcInc srcStart dstInc dstStart arb mode).ulControl
        = srcInc ||| dstInc ||| itemSize ||| arb ||| ((count - 1) <<< 4) |||
            specModeField mode) := by
  have h : (uDMATaskStructEntry count itemSize srcInc srcStart dstInc dstStart arb
      mode).ulControl = specControlWord count itemSize srcInc dstInc arb mode := by
    simp only [uDMATaskStructEntry, specControlWord, modeField_eq_spec]
  refine ⟨h, ?_⟩
  intro h1 h2
  rw [h, specControlWord, sub32_one h1 (by omega), shl32_small (by norm_num; omega),
    Nat.shiftLeft_eq]

/-- Witness for C4: the second part at count 1024 in memory scatter-gather
mode. -/
theorem uDMATaskStructEntry_control_word_witness :
    (uDMATaskStructEntry 1024 UDMA_SIZE_8 UDMA_SRC_INC_8 0x1000 UDMA_DST_INC_8 0x3000
      UDMA_ARB_4 UDMA_MODE_MEM_SCATTER_GATHER).ulControl
      = UDMA_SRC_INC_8 ||| UDMA_DST_INC_8 ||| UDMA_SIZE_8 ||| UDMA_ARB_4 |||
          ((1024 - 1) <<< 4) ||| specModeField UDMA_MODE_MEM_SCATTER_GATHER :=
  (uDMATaskStructEntry_control_word 1024 UDMA_SIZE_8 UDMA_SRC_INC_8 0x1000 UDMA_DST_INC_8
    0x3000 UDMA_ARB_4 UDMA_MODE_MEM_SCATTER_GATHER).2 (by decide) (by decide)

/-- C5: in either scatter-gather mode the control word has the
alternate-select bit `UDMA_MODE_ALT_SELECT` set, for every other parameter. -/
theorem uDMATaskStructEntry_scatter_gather_alt_select
    (count itemSize srcInc srcStart dstInc dstStart arb mode : Nat)
    (hm : mode = UDMA_MODE_MEM_SCATTER_GATHER ∨ mode = UDMA_MODE_PER_SCATTER_GATHER) :
    (uDMATaskStructEntry count itemSize srcInc srcStart dstInc dstStart arb mode).ulControl
      &&& UDMA_MODE_ALT_SELECT = UDMA_MODE_ALT_SELECT := by
  simp only [uDMATaskStructEntry, if_pos hm, UDMA_MODE_ALT_SELECT]
  rw [← Nat.or_assoc]
  exact or_one_and_one _

/-- Witness for C5: a peripheral scatter-gather task. -/
theorem uDMATaskStructEntry_scatter_gather_alt_select_witness :
    (uDMATaskStructEntry 16 UDMA_SIZE_8 UDMA_SRC_INC_8 0x1000 UDMA_DST_INC_NONE 0x4000C000
      UDMA_ARB_4 UDMA_MODE_PER_SCATTER_GATHER).ulControl
      &&& UDMA_MODE_ALT_SELECT = UDMA_MODE_ALT_SELECT :=
  uDMATaskStructEntry_scatter_gather_alt_select 16 UDMA_SIZE_8 UDMA_SRC_INC_8 0x1000
    UDMA_DST_INC_NONE 0x4000C000 UDMA_ARB_4 UDMA_MODE_PER_SCATTER_GATHER (Or.inr rfl)

theorem nonScatterGather_mode_field : ∀ m ∈ nonScatterGatherModes,
    (if m = UDMA_MODE_MEM_SCATTER_GATHER ∨ m = UDMA_MODE_PER_SCATTER_GATHER
      then m ||| UDMA_MODE_ALT_SELECT else m) &&& 7 = m := by decide

theorem nonScatterGather_bit_zero : ∀ m ∈ nonScatterGatherModes,
    (m &&& UDMA_MODE_ALT_SELECT = 0 ↔ m = UDMA_MODE_STOP ∨ m = UDMA_MODE_AUTO) ∧
    (m &&& UDMA_MODE_ALT_SELECT = UDMA_MODE_ALT_SELECT ↔
      m = UDMA_MODE_BASIC ∨ m = UDMA_MODE_PINGPONG) := by decide

/-- C6, as stated, fails: a valid basic-mode task (the one of the
specification's end-to-end scenario) is not a scatter-gather task, and bit 0 of
its control word, the position of `UDMA_MODE_ALT_SELECT`, is set, because
`UDMA_MODE_BASIC` is itself `0x00000001`. -/
theorem nonScatterGather_alt_select_counterexample :
    (1 ≤ 256 ∧ 256 ≤ 1024) ∧ UDMA_SIZE_32 ∈ validItemSizes ∧
    UDMA_SRC_INC_32 ∈ validSrcIncrements ∧ UDMA_DST_INC_NONE ∈ validDstIncrements ∧
    UDMA_ARB_8 ∈ validArbSizes ∧ UDMA_MODE_BASIC ∈ nonScatterGatherModes ∧
    UDMA_MODE_BASIC ≠ UDMA_MODE_MEM_SCATTER_GATHER ∧
    UDMA_MODE_BASIC ≠ UDMA_MODE_PER_SCATTER_GATHER ∧
    (uDMATaskStructEntry 256 UDMA_SIZE_32 UDMA_SRC_INC_32 0x2000 UDMA_DST_INC_NONE 0x4000
      UDMA_ARB_8 UDMA_MODE_BASIC).ulControl &&& UDMA_MODE_ALT_SELECT = 1 ∧
    (uDMATaskStructEntry 256 UDMA_SIZE_32 UDMA_SRC_INC_32 0x2000 UDMA_DST_INC_NONE 0x4000
      UDMA_ARB_8 UDMA_MODE_BASIC).ulControl &&& UDMA_MODE_ALT_SELECT ≠ 0 := by decide

/-- C6, amended: for a valid input whose mode is stop, basic, auto-request or
ping-pong the macro adds no bit to the mode: bits 0..2 of the control word are
the mode constant itself.  Bit 0, the position of `UDMA_MODE_ALT_SELECT`, is
therefore unset exactly for `UDMA_MODE_STOP` and `UDMA_MODE_AUTO`, and set
exactly for `UDMA_MODE_BASIC` and `UDMA_MODE_PINGPONG`, whose encodings
contain it. -/
theorem uDMATaskStructEntry_nonScatterGather_mode
    (count itemSize srcInc srcStart dstInc dstStart arb mode : Nat)
    (hz : itemSize ∈ validItemSizes) (hs : srcInc ∈ validSrcIncrements)
    (hd : dstInc ∈ validDstIncrements) (ha : arb ∈ validArbSizes)
    (hm : mode ∈ nonScatterGatherModes) :
    (uDMATaskStructEntry count itemSize srcInc srcStart dstInc dstStart arb mode).ulControl
      &&& 7 = mode ∧
    ((uDMATaskStructEntry count itemSize srcInc srcStart dstInc dstStart arb mode).ulControl
      &&& UDMA_MODE_ALT_SELECT = 0 ↔ mode = UDMA_MODE_STOP ∨ mode = UDMA_MODE_AUTO) ∧
    ((uDMATaskStructEntry count itemSize srcInc srcStart dstInc dstStart arb mode).ulControl
      &&& UDMA_MODE_ALT_SELECT = UDMA_MODE_ALT_SELECT ↔
        mode = UDMA_MODE_BASIC ∨ mode = UDMA_MODE_PINGPONG) := by
  have h7 : (uDMATaskStructEntry count itemSize srcInc srcStart dstInc dstStart arb
      mode).ulControl &&& 7 = mode := by
    simp only [uDMATaskStructEntry, Nat.and_distrib_right, srcInc_clear_of_mode _ hs,
      dstInc_clear_of_mode _ hd, itemSize_clear_of_mode _ hz, arbSize_clear_of_mode _ ha,
      shl32_four_low _ 7 (by norm_num), nonScatterGather_mode_field _ hm, Nat.zero_or]
  have h1 : (uDMATaskStructEntry count itemSize srcInc srcStart dstInc dstStart arb
      mode).ulControl &&& UDMA_MODE_ALT_SELECT = mode &&& UDMA_MODE_ALT_SELECT := by
    have h71 : (7 : Nat) &&& UDMA_MODE_ALT_SELECT = UDMA_MODE_ALT_SELECT := by decide
    calc (uDMATaskStructEntry count itemSize srcInc srcStart dstInc dstStart arb
          mode).ulControl &&& UDMA_MODE_ALT_SELECT
        = (uDMATaskStructEntry count itemSize srcInc srcStart dstInc dstStart arb
          mode).ulControl &&& (7 &&& UDMA_MODE_ALT_SELECT) := by rw [h71]
      _ = (uDMATaskStructEntry count itemSize srcInc srcStart dstInc dstStart arb
          mode).ulControl &&& 7 &&& UDMA_MODE_ALT_SELECT := (Nat.and_assoc _ _ _).symm
      _ = mode &&& UDMA_MODE_ALT_SELECT := by rw [h7]
  rw [h1]
  exact ⟨h7, nonScatterGather_bit_zero _ hm⟩

/-- Witness for amended C6: an auto-request task, whose bit 0 is unset. -/
theorem uDMATaskStructEntry_nonScatterGather_mode_witness :
    (uDMATaskStructEntry 64 UDMA_SIZE_16 UDMA_SRC_INC_16 0x20000000 UDMA_DST_INC_16 0x20000100
      UDMA_ARB_2 UDMA_MODE_AUTO).ulControl &&& 7 = UDMA_MODE_AUTO ∧
    ((uDMATaskStructEntry 64 UDMA_SIZE_16 UDMA_SRC_INC_16 0x20000000 UDMA_DST_INC_16 0x20000100
      UDMA_ARB_2 UDMA_MODE_AUTO).ulControl &&& UDMA_MODE_ALT_SELECT = 0 ↔
        UDMA_MODE_AUTO = UDMA_MODE_STOP ∨ UDMA_MODE_AUTO = UDMA_MODE_AUTO) ∧
    ((uDMATaskStructEntry 64 UDMA_SIZE_16 UDMA_SRC_INC_16 0x20000000 UDMA_DST_INC_16 0x20000100
      UDMA_ARB_2 UDMA_MODE_AUTO).ulControl &&& UDMA_MODE_ALT_SELECT = UDMA_MODE_ALT_SELECT ↔
        UDMA_MODE_AUTO = UDMA_MODE_BASIC ∨ UDMA_MODE_AUTO = UDMA_MODE_PINGPONG) :=
  uDMATaskStructEntry_nonScatterGather_mode 64 UDMA_SIZE_16 UDMA_SRC_INC_16 0x20000000
    UDMA_DST_INC_16 0x20000100 UDMA_ARB_2 UDMA_MODE_AUTO
    (by decide) (by decide) (by decide) (by decide) (by decide)

/-! ## The end-to-end scenario, the spare field, totality -/

/-- C7: 256 items of 32 bits from 0x2000 with a 32-bit source increment to the
fixed address 0x4000, arbitration size 8, basic mode: the source end address is
0x23FF, the destination end address 0x4000, and the transfer-count field of the
control word is 255. -/
theorem uDMATaskStructEntry_scenario :
    (uDMATaskStructEntry 256 UDMA_SIZE_32 UDMA_SRC_INC_32 0x2000 UDMA_DST_INC_NONE 0x4000
      UDMA_ARB_8 UDMA_MODE_BASIC).pvSrcEndAddr = 0x23FF ∧
    (uDMATaskStructEntry 256 UDMA_SIZE_32 UDMA_SRC_INC_32 0x2000 UDMA_DST_INC_NONE 0x4000
      UDMA_ARB_8 UDMA_MODE_BASIC).pvDstEndAddr = 0x4000 ∧
    (uDMATaskStructEntry 256 UDMA_SIZE_32 UDMA_SRC_INC_32 0x2000 UDMA_DST_INC_NONE 0x4000
      UDMA_ARB_8 UDMA_MODE_BASIC).ulControl >>> 4 &&& 0x3FF = 255 := by decide

/-- C8: the fourth field of the entry, `ulSpare`, is 0 for every input. -/
theorem uDMATaskStructEntry_spare
    (count itemSize srcInc srcStart dstInc dstStart arb mode : Nat) :
    (uDMATaskStructEntry count itemSize srcInc srcStart dstInc dstStart arb mode).ulSpare
      = 0 := rfl

theorem or_lt_word {a b : Nat} (ha : a < 4294967296) (hb : b < 4294967296) :
    a ||| b < 4294967296 := by
  have h : (4294967296 : Nat) = 2 ^ 32 := by norm_num
  rw [h] at ha hb ⊢
  exact Nat.or_lt_two_pow ha hb

theorem shl32_lt (a k : Nat) : shl32 a k < 4294967296 := by
  unfold shl32 ULONG_RANGE
  omega

theorem byteIndex_lt (p i : Nat) : byteIndex p i < 4294967296 := by
  unfold byteIndex ULONG_RANGE
  omega

/-- C9: the macro checks nothing and has no error outcome: for every count
whatsoever (0 and 1025 included) and every 32-bit value of the other
parameters, consistent or not, it yields an entry whose two addresses and
control word are 32-bit words and whose spare field is 0. -/
theorem uDMATaskStructEntry_total
    (count itemSize srcInc srcStart dstInc dstStart arb mode : Nat)
    (hz : itemSize < 4294967296) (hs : srcInc < 4294967296) (hsa : srcStart < 4294967296)
    (hd : dstInc < 4294967296) (hda : dstStart < 4294967296) (ha : arb < 4294967296)
    (hm : mode < 4294967296) :
    ∃ e : tDMAControlTable,
      uDMATaskStructEntry count itemSize srcInc srcStart dstInc dstStart arb mode = e ∧
      e.pvSrcEndAddr < 4294967296 ∧ e.pvDstEndAddr < 4294967296 ∧
      e.ulControl < 4294967296 ∧ e.ulSpare = 0 := by
  refine ⟨_, rfl, ?_, ?_, ?_, rfl⟩
  · simp only [uDMATaskStructEntry]
    split
    · exact hsa
    · exact byteIndex_lt _ _
  · simp only [uDMATaskStructEntry]
    split
    · exact hda
    · exact byteIndex_lt _ _
  · simp only [uDMATaskStructEntry]
    refine or_lt_word (or_lt_word (or_lt_word (or_lt_word (or_lt_word hs hd) hz) ha)
      (shl32_lt _ _)) ?_
    split
    · exact or_lt_word hm (by decide)
    · exact hm

/-- Witness for C9: count 0 with an 8-bit item size against a 32-bit source
increment and a 16-bit destination increment. -/
theorem uDMATaskStructEntry_total_witness :
    ∃ e : tDMAControlTable,
      uDMATaskStructEntry 0 UDMA_SIZE_8 UDMA_SRC_INC_32 0x2000 UDMA_DST_INC_16 0x4000
        UDMA_ARB_8 UDMA_MODE_BASIC = e ∧
      e.pvSrcEndAddr < 4294967296 ∧ e.pvDstEndAddr < 4294967296 ∧
      e.ulControl < 4294967296 ∧ e.ulSpare = 0 :=
  uDMATaskStructEntry_total 0 UDMA_SIZE_8 UDMA_SRC_INC_32 0x2000 UDMA_DST_INC_16 0x4000
    UDMA_ARB_8 UDMA_MODE_BASIC (by decide) (by decide) (by decide) (by decide) (by decide)
    (by decide) (by decide)

/-! ## End address of a contiguous buffer -/

/-- C10: for a count in [1,1024] and a width `w` of 8, 16 or 32 bits, with
`UDMA_SIZE_w` and `UDMA_SRC_INC_w` the source end address is
`srcStart + count * (w / 8) - 1` in the 32-bit address space, the address of
the last byte of `count` contiguous items, and it is that number itself when
the buffer ends inside the address space; likewise for the destination with
`UDMA_DST_INC_w`.  The increment of the other side is arbitrary. -/
theorem uDMATaskStructEntry_last_byte
    (count w itemSize srcInc srcStart dstInc dstStart arb mode otherSrcInc otherDstInc : Nat)
    (hc1 : 1 ≤ count) (hc2 : count ≤ 1024)
    (hw : (w, itemSize, srcInc, dstInc) ∈
      [(8, UDMA_SIZE_8, UDMA_SRC_INC_8, UDMA_DST_INC_8),
       (16, UDMA_SIZE_16, UDMA_SRC_INC_16, UDMA_DST_INC_16),
       (32, UDMA_SIZE_32, UDMA_SRC_INC_32, UDMA_DST_INC_32)]) :
    (uDMATaskStructEntry count itemSize srcInc srcStart otherDstInc dstStart arb
      mode).pvSrcEndAddr = (srcStart + count * (w / 8) - 1) % 4294967296 ∧
    (uDMATaskStructEntry count itemSize otherSrcInc srcStart dstInc dstStart arb
      mode).pvDstEndAddr = (dstStart + count * (w / 8) - 1) % 4294967296 ∧
    (srcStart + count * (w / 8) ≤ 4294967296 →
      (uDMATaskStructEntry count itemSize srcInc srcStart otherDstInc dstStart arb
        mode).pvSrcEndAddr = srcStart + count * (w / 8) - 1) ∧
    (dstStart + count * (w / 8) ≤ 4294967296 →
      (uDMATaskStructEntry count itemSize otherSrcInc srcStart dstInc dstStart arb
        mode).pvDstEndAddr = dstStart + count * (w / 8) - 1) := by
  have hk : ∃ k, k ≤ 2 ∧ w / 8 = 2 ^ k ∧ srcInc >>> 26 = k ∧ dstInc >>> 30 = k ∧
      srcInc ≠ UDMA_SRC_INC_NONE ∧ dstInc ≠ UDMA_DST_INC_NONE := by
    simp only [List.mem_cons, Prod.mk.injEq, List.mem_singleton, List.not_mem_nil,
      or_false] at hw
    rcases hw with ⟨rfl, _, h2, h3⟩ | ⟨rfl, _, h2, h3⟩ | ⟨rfl, _, h2, h3⟩ <;> subst h2 h3
    · exact ⟨0, by decide⟩
    · exact ⟨1, by decide⟩
    · exact ⟨2, by decide⟩
  obtain ⟨k, hk2, hwk, hsk, hdk, hsn, hdn⟩ := hk
  have esrc := srcEnd_eq count itemSize srcInc srcStart otherDstInc dstStart arb mode k
    hc1 hc2 hsk hk2 hsn
  have edst := dstEnd_eq count itemSize otherSrcInc srcStart dstInc dstStart arb mode k
    hc1 hc2 hdk hk2 hdn
  rw [hwk]
  refine ⟨esrc, edst, ?_, ?_⟩
  · intro h
    rw [esrc, mod_word_of_le h]
  · intro h
    rw [edst, mod_word_of_le h]

/-- Witness for C10: 100 halfwords from 0x20000000 to 0x20001000. -/
theorem uDMATaskStructEntry_last_byte_witness :
    (uDMATaskStructEntry 100 UDMA_SIZE_16 UDMA_SRC_INC_16 0x20000000 UDMA_DST_INC_NONE
      0x20001000 UDMA_ARB_4 UDMA_MODE_AUTO).pvSrcEndAddr
      = (0x20000000 + 100 * (16 / 8) - 1) % 4294967296 ∧
    (uDMATaskStructEntry 100 UDMA_SIZE_16 UDMA_SRC_INC_NONE 0x20000000 UDMA_DST_INC_16
      0x20001000 UDMA_ARB_4 UDMA_MODE_AUTO).pvDstEndAddr
      = (0x20001000 + 100 * (16 / 8) - 1) % 4294967296 ∧
    (0x20000000 + 100 * (16 / 8) ≤ 4294967296 →
      (uDMATaskStructEntry 100 UDMA_SIZE_16 UDMA_SRC_INC_16 0x20000000 UDMA_DST_INC_NONE
        0x20001000 UDMA_ARB_4 UDMA_MODE_AUTO).pvSrcEndAddr
        = 0x20000000 + 100 * (16 / 8) - 1) ∧
    (0x20001000 + 100 * (16 / 8) ≤ 4294967296 →
      (uDMATaskStructEntry 100 UDMA_SIZE_16 UDMA_SRC_INC_NONE 0x20000000 UDMA_DST_INC_16
        0x20001000 UDMA_ARB_4 UDMA_MODE_AUTO).pvDstEndAddr
        = 0x20001000 + 100 * (16 / 8) - 1) :=
  uDMATaskStructEntry_last_byte 100 16 UDMA_SIZE_16 UDMA_SRC_INC_16 0x20000000
    UDMA_DST_INC_16 0x20001000 UDMA_ARB_4 UDMA_MODE_AUTO UDMA_SRC_INC_NONE UDMA_DST_INC_NONE
    (by decide) (by decide) (by decide)

/-! ## Arbitration sizes, attribute flags, structure indices -/

/-- C11: each arbitration-size constant is `k << 14` for the `k` with burst
length `2 ^ k`, `k` from 0 to 10: the table of the eleven constants is exactly
the list of `(2 ^ k, k << 14)`, its burst lengths are the powers of two from 1
to 1024, the arbitration field `(value >> 14) & 0xF` gives `k` back, and the
eleven values are pairwise distinct. -/
theorem arbSize_encodes_log2 :
    arbSizeTable = (List.range 11).map (fun k => (2 ^ k, k <<< 14)) ∧
    arbSizeTable.map Prod.fst = [1, 2, 4, 8, 16, 32, 64, 128, 256, 512, 1024] ∧
    arbSizeTable.map Prod.snd = validArbSizes ∧
    validArbSizes.map (fun v => v >>> 14 &&& 0xF) = List.range 11 ∧
    validArbSizes.Nodup := by decide

/-- C15: the four attribute flags are the single bits 0, 1, 2 and 3, no two of
them share a bit, `UDMA_ATTR_ALL` is their OR, and two subsets of the four
attributes with the same flag word are the same subset. -/
theorem attr_flags_bitset :
    attrFlags = [2 ^ 0, 2 ^ 1, 2 ^ 2, 2 ^ 3] ∧
    attrFlags.Pairwise (fun a b => a &&& b = 0) ∧
    UDMA_ATTR_ALL = UDMA_ATTR_USEBURST ||| UDMA_ATTR_ALTSELECT ||| UDMA_ATTR_HIGH_PRIORITY |||
      UDMA_ATTR_REQMASK ∧
    (∀ a b c d a2 b2 c2 d2 : Bool, attrWord a b c d = attrWord a2 b2 c2 d2 →
      a = a2 ∧ b = b2 ∧ c = c2 ∧ d = d2) ∧
    (∀ a b c d : Bool, attrWord a b c d &&& UDMA_ATTR_ALL = attrWord a b c d) := by decide

theorem index_fields : ∀ n < 32, ∀ sel ∈ [UDMA_PRI_SELECT, UDMA_ALT_SELECT],
    channelStructIndex n sel &&& 0x1F = n ∧ channelStructIndex n sel &&& 0x20 = sel := by
  decide

/-- C16: for a channel number `n` in 0..31 and a selector `UDMA_PRI_SELECT` or
`UDMA_ALT_SELECT`, `(n | sel) & 0x1F = n` and `(n | sel) & 0x20 = sel`; the
primary index is the channel number, and two pairs of channel and selector with
the same index are the same pair. -/
theorem channelStructIndex_lossless (n sel : Nat) (hn : n < 32)
    (hsel : sel ∈ [UDMA_PRI_SELECT, UDMA_ALT_SELECT]) :
    channelStructIndex n sel &&& 0x1F = n ∧ channelStructIndex n sel &&& 0x20 = sel ∧
    channelStructIndex n UDMA_PRI_SELECT = n ∧
    ∀ n2 sel2, n2 < 32 → sel2 ∈ [UDMA_PRI_SELECT, UDMA_ALT_SELECT] →
      channelStructIndex n sel = channelStructIndex n2 sel2 → n = n2 ∧ sel = sel2 := by
  obtain ⟨h1, h2⟩ := index_fields n hn sel hsel
  refine ⟨h1, h2, ?_, ?_⟩
  · simp [channelStructIndex, UDMA_PRI_SELECT]
  · intro n2 sel2 hn2 hsel2 heq
    obtain ⟨k1, k2⟩ := index_fields n2 hn2 sel2 hsel2
    rw [← heq] at k1 k2
    exact ⟨h1.symm.trans k1, h2.symm.trans k2⟩

/-- Witness for C16: the alternate structure of channel 30. -/
theorem channelStructIndex_lossless_witness :
    channelStructIndex 30 UDMA_ALT_SELECT &&& 0x1F = 30 ∧
    channelStructIndex 30 UDMA_ALT_SELECT &&& 0x20 = UDMA_ALT_SELECT ∧
    channelStructIndex 30 UDMA_PRI_SELECT = 30 ∧
    ∀ n2 sel2, n2 < 32 → sel2 ∈ [UDMA_PRI_SELECT, UDMA_ALT_SELECT] →
      channelStructIndex 30 UDMA_ALT_SELECT = channelStructIndex n2 sel2 →
        30 = n2 ∧ UDMA_ALT_SELECT = sel2 :=
  channelStructIndex_lossless 30 UDMA_ALT_SELECT (by decide) (by decide)

end UDMA

namespace UCRC

/-- C17: the uCRC configuration register is at offset 0x0, the control
register at offset 0x4 and the result register at offset 0x8. -/
theorem ucrc_register_offsets :
    UCRC_O_CONFIG = 0x0 ∧ UCRC_O_CONTROL = 0x4 ∧ UCRC_O_RES = 0x8 := by decide

end UCRC

namespace UDMA

/-! ## Setting and clearing bits of a 32-bit word -/

theorem or_and_self (w b : Nat) : (w ||| b) &&& b = b := by
  apply Nat.eq_of_testBit_eq
  intro i
  simp only [Nat.testBit_and, Nat.testBit_or]
  cases w.testBit i <;> cases b.testBit i <;> rfl

theorem or_and_of_disjoint {c m : Nat} (h : c &&& m = 0) (f : Nat) :
    (f ||| c) &&& m = f &&& m := by
  rw [Nat.and_distrib_right, h, Nat.or_zero]

theorem and_and_of_disjoint {x m : Nat} (h : x &&& m = 0) (k : Nat) :
    (x &&& k) &&& m = 0 := by
  rw [Nat.and_comm x k, Nat.and_assoc, h, Nat.and_zero]

theorem testBit_not32 (a i : Nat) :
    (not32 a).testBit i = (decide (i < 32) && !a.testBit i) := by
  have h1 : (0xFFFFFFFF : Nat) = 2 ^ 32 - 1 := by norm_num
  have h2 : (4294967296 : Nat) = 2 ^ 32 := by norm_num
  simp only [not32, ULONG_RANGE, h1, h2, Nat.testBit_xor, Nat.testBit_two_pow_sub_one,
    Nat.testBit_mod_two_pow]
  cases decide (i < 32) <;> cases a.testBit i <;> rfl

theorem testBit_of_lt_word {m : Nat} (hm : m < 4294967296) {i : Nat} (hi : ¬ i < 32) :
    m.testBit i = false := by
  apply Nat.testBit_lt_two_pow
  have h : (2 : Nat) ^ 32 ≤ 2 ^ i := Nat.pow_le_pow_right (by norm_num) (by omega)
  have h2 : (4294967296 : Nat) = 2 ^ 32 := by norm_num
  omega

theorem and_not32_of_disjoint {c m : Nat} (h : c &&& m = 0) (hm : m < 4294967296) (f : Nat) :
    (f &&& not32 c) &&& m = f &&& m := by
  apply Nat.eq_of_testBit_eq
  intro i
  have hi : (c.testBit i && m.testBit i) = false := by
    rw [← Nat.testBit_and, h, Nat.zero_testBit]
  simp only [Nat.testBit_and, testBit_not32]
  by_cases h32 : i < 32
  · simp only [h32, decide_True, Bool.true_and]
    revert hi
    cases f.testBit i <;> cases c.testBit i <;> cases m.testBit i <;> simp
  · simp [testBit_of_lt_word hm h32]

theorem and_not32_self (w b : Nat) : (w &&& not32 b) &&& b = 0 := by
  apply Nat.eq_of_testBit_eq
  intro i
  simp only [Nat.testBit_and, testBit_not32, Nat.zero_testBit]
  cases w.testBit i <;> cases b.testBit i <;> simp

theorem and_not32_idem (w b : Nat) : (w &&& not32 b) &&& not32 b = w &&& not32 b := by
  rw [Nat.and_assoc, Nat.and_self]

theorem channelBit_eq {ch : Nat} (h : ch < 32) : shl32 1 ch = 2 ^ ch := by
  have hp : (2 : Nat) ^ ch < 2 ^ 32 := Nat.pow_lt_pow_right (by norm_num) h
  rw [shl32_small (by norm_num at hp ⊢; exact hp), Nat.one_mul]

theorem attrFlags_lt_word : ∀ f ∈ attrFlags, f < 4294967296 := by decide

/-! ## Channel enable bit and channel attributes -/

/-- C12: for a channel number in 0..31, reading the enable state right after
`uDMAChannelEnable` gives true and right after `uDMAChannelDisable` gives
false, from every state. -/
theorem uDMAChannel_enable_then_read (r : uDMAChannelRegs) (ch : Nat) (h : ch < 32) :
    uDMAChannelIsEnabled (uDMAChannelEnable r ch) ch = true ∧
    uDMAChannelIsEnabled (uDMAChannelDisable r ch) ch = false := by
  have hb : shl32 1 ch = 2 ^ ch := channelBit_eq h
  constructor
  · simp only [uDMAChannelIsEnabled, uDMAChannelEnable, or_and_self, hb]
    simp
  · simp only [uDMAChannelIsEnabled, uDMAChannelDisable, and_not32_self]
    rfl

/-- Witness for C12: channel 5, from the state with channel 5 disabled and
channel 0 enabled. -/
theorem uDMAChannel_enable_then_read_witness :
    uDMAChannelIsEnabled (uDMAChannelEnable ⟨1, fun _ => 0⟩ 5) 5 = true ∧
    uDMAChannelIsEnabled (uDMAChannelDisable ⟨1, fun _ => 0⟩ 5) 5 = false :=
  uDMAChannel_enable_then_read ⟨1, fun _ => 0⟩ 5 (by decide)

/-- C13: enabling a channel twice leaves the state that enabling it once
leaves, and so does disabling, for every channel number and every state. -/
theorem uDMAChannel_enable_disable_idempotent (r : uDMAChannelRegs) (ch : Nat) :
    uDMAChannelEnable (uDMAChannelEnable r ch) ch = uDMAChannelEnable r ch ∧
    uDMAChannelDisable (uDMAChannelDisable r ch) ch = uDMAChannelDisable r ch := by
  constructor
  · simp only [uDMAChannelEnable, Nat.or_assoc, Nat.or_self]
  · simp only [uDMAChannelDisable, and_not32_idem]

/-- C14: enabling or disabling a set `attr` of attributes of a channel leaves
every attribute flag outside `attr` as it was in the word that
`uDMAChannelAttributeGet` reports for the channel, and leaves the word of every
other channel as it was, from every state. -/
theorem uDMAChannelAttribute_frame (r : uDMAChannelRegs) (ch attr flag other : Nat)
    (hf : flag ∈ attrFlags) (hd : flag &&& attr = 0) :
    uDMAChannelAttributeGet (uDMAChannelAttributeEnable r ch attr) ch &&& flag
      = uDMAChannelAttributeGet r ch &&& flag ∧
    uDMAChannelAttributeGet (uDMAChannelAttributeDisable r ch attr) ch &&& flag
      = uDMAChannelAttributeGet r ch &&& flag ∧
    (other ≠ ch →
      uDMAChannelAttributeGet (uDMAChannelAttributeEnable r ch attr) other
        = uDMAChannelAttributeGet r other ∧
      uDMAChannelAttributeGet (uDMAChannelAttributeDisable r ch attr) other
        = uDMAChannelAttributeGet r other) := by
  have hda : attr &&& flag = 0 := by rw [Nat.and_comm]; exact hd
  have hx : (attr &&& UDMA_ATTR_ALL) &&& flag = 0 := and_and_of_disjoint hda _
  refine ⟨?_, ?_, ?_⟩
  · simp only [uDMAChannelAttributeGet, uDMAChannelAttributeEnable, if_true]
    exact or_and_of_disjoint hx _
  · simp only [uDMAChannelAttributeGet, uDMAChannelAttributeDisable, if_true]
    exact and_not32_of_disjoint hx (attrFlags_lt_word _ hf) _
  · intro hne
    simp only [uDMAChannelAttributeGet, uDMAChannelAttributeEnable,
      uDMAChannelAttributeDisable, if_neg hne, and_self]

/-- Witness for C14: channel 7 holds use-burst and high-priority; enabling or
disabling alternate-select and request-mask leaves the high-priority flag. -/
theorem uDMAChannelAttribute_frame_witness :
    uDMAChannelAttributeGet (uDMAChannelAttributeEnable ⟨0, fun _ => 5⟩ 7
        (UDMA_ATTR_ALTSELECT ||| UDMA_ATTR_REQMASK)) 7 &&& UDMA_ATTR_HIGH_PRIORITY
      = uDMAChannelAttributeGet ⟨0, fun _ => 5⟩ 7 &&& UDMA_ATTR_HIGH_PRIORITY ∧
    uDMAChannelAttributeGet (uDMAChannelAttributeDisable ⟨0, fun _ => 5⟩ 7
        (UDMA_ATTR_ALTSELECT ||| UDMA_ATTR_REQMASK)) 7 &&& UDMA_ATTR_HIGH_PRIORITY
      = uDMAChannelAttributeGet ⟨0, fun _ => 5⟩ 7 &&& UDMA_ATTR_HIGH_PRIORITY ∧
    (3 ≠ 7 →
      uDMAChannelAttributeGet (uDMAChannelAttributeEnable ⟨0, fun _ => 5⟩ 7
          (UDMA_ATTR_ALTSELECT ||| UDMA_ATTR_REQMASK)) 3
        = uDMAChannelAttributeGet ⟨0, fun _ => 5⟩ 3 ∧
      uDMAChannelAttributeGet (uDMAChannelAttributeDisable ⟨0, fun _ => 5⟩ 7
          (UDMA_ATTR_ALTSELECT ||| UDMA_ATTR_REQMASK)) 3
        = uDMAChannelAttributeGet ⟨0, fun _ => 5⟩ 3) :=
  uDMAChannelAttribute_frame ⟨0, fun _ => 5⟩ 7 (UDMA_ATTR_ALTSELECT ||| UDMA_ATTR_REQMASK)
    UDMA_ATTR_HIGH_PRIORITY 3 (by decide) (by decide)

end UDMA

namespace CAN

/-! ## Message-object flags -/

theorem and_of_and_superset {f m b : Nat} (hb : m &&& b = b) (h : f &&& m = m) :
    f &&& b = b := by
  calc f &&& b = f &&& (m &&& b) := by rw [hb]
    _ = (f &&& m) &&& b := (Nat.and_assoc f m b).symm
    _ = m &&& b := by rw [h]
    _ = b := hb

/-- C18: a flags word that contains `MSG_OBJ_USE_DIR_FILTER`, or that contains
`MSG_OBJ_USE_EXT_FILTER`, has the `MSG_OBJ_USE_ID_FILTER` bit set: the masked
word is `MSG_OBJ_USE_ID_FILTER`, which is not 0. -/
theorem dir_ext_filter_has_id_filter (f : Nat) :
    (f &&& MSG_OBJ_USE_DIR_FILTER = MSG_OBJ_USE_DIR_FILTER →
      f &&& MSG_OBJ_USE_ID_FILTER = MSG_OBJ_USE_ID_FILTER ∧ f &&& MSG_OBJ_USE_ID_FILTER ≠ 0) ∧
    (f &&& MSG_OBJ_USE_EXT_FILTER = MSG_OBJ_USE_EXT_FILTER →
      f &&& MSG_OBJ_USE_ID_FILTER = MSG_OBJ_USE_ID_FILTER ∧ f &&& MSG_OBJ_USE_ID_FILTER ≠ 0) := by
  have hid : MSG_OBJ_USE_ID_FILTER ≠ 0 := by decide
  have hdir : MSG_OBJ_USE_DIR_FILTER &&& MSG_OBJ_USE_ID_FILTER = MSG_OBJ_USE_ID_FILTER := by
    decide
  have hext : MSG_OBJ_USE_EXT_FILTER &&& MSG_OBJ_USE_ID_FILTER = MSG_OBJ_USE_ID_FILTER := by
    decide
  constructor
  · intro h
    have e := and_of_and_superset hdir h
    exact ⟨e, by rw [e]; exact hid⟩
  · intro h
    have e := and_of_and_superset hext h
    exact ⟨e, by rw [e]; exact hid⟩

/-- Witness for C18: the word 0x39, which contains both filter flags and the
transmit-interrupt flag. -/
theorem dir_ext_filter_has_id_filter_witness :
    (0x39 &&& MSG_OBJ_USE_DIR_FILTER = MSG_OBJ_USE_DIR_FILTER ∧
      0x39 &&& MSG_OBJ_USE_EXT_FILTER = MSG_OBJ_USE_EXT_FILTER) ∧
    (0x39 &&& MSG_OBJ_USE_ID_FILTER = MSG_OBJ_USE_ID_FILTER ∧
      0x39 &&& MSG_OBJ_USE_ID_FILTER ≠ 0) ∧
    (0x39 &&& MSG_OBJ_USE_ID_FILTER = MSG_OBJ_USE_ID_FILTER ∧
      0x39 &&& MSG_OBJ_USE_ID_FILTER ≠ 0) :=
  ⟨by decide, (dir_ext_filter_has_id_filter 0x39).1 (by decide),
    (dir_ext_filter_has_id_filter 0x39).2 (by decide)⟩

theorem configFlags_clear_of_status : ∀ c ∈ configFlags, c &&& MSG_OBJ_STATUS_MASK = 0 := by
  decide

/-- C19: `MSG_OBJ_STATUS_MASK` is `MSG_OBJ_NEW_DATA | MSG_OBJ_DATA_LOST`, that
is 0x180, and shares no bit with any of the eight configuration flags; hence
for every flags word `f` and every word `c` of bits outside the mask, such as
any configuration flag or any OR of them, `f & MSG_OBJ_STATUS_MASK` is the same
after setting `c` in `f` and after clearing `c` in `f`. -/
theorem status_mask_only_status :
    MSG_OBJ_STATUS_MASK = MSG_OBJ_NEW_DATA ||| MSG_OBJ_DATA_LOST ∧
    MSG_OBJ_STATUS_MASK = 0x180 ∧
    (∀ c ∈ configFlags, c &&& MSG_OBJ_STATUS_MASK = 0) ∧
    configFlags.foldl (fun a c => a ||| c) 0 &&& MSG_OBJ_STATUS_MASK = 0 ∧
    (∀ f c : Nat, c &&& MSG_OBJ_STATUS_MASK = 0 →
      (f ||| c) &&& MSG_OBJ_STATUS_MASK = f &&& MSG_OBJ_STATUS_MASK ∧
      (f &&& UDMA.not32 c) &&& MSG_OBJ_STATUS_MASK = f &&& MSG_OBJ_STATUS_MASK) := by
  refine ⟨rfl, by decide, configFlags_clear_of_status, by decide, ?_⟩
  intro f c hc
  exact ⟨UDMA.or_and_of_disjoint hc f, UDMA.and_not32_of_disjoint hc (by decide) f⟩

/-- Witness for C19: setting and clearing the direction-filter flag in a word
that holds new-data and the FIFO flag. -/
theorem status_mask_only_status_witness :
    MSG_OBJ_USE_DIR_FILTER &&& MSG_OBJ_STATUS_MASK = 0 ∧
    (0x280 ||| MSG_OBJ_USE_DIR_FILTER) &&& MSG_OBJ_STATUS_MASK
      = 0x280 &&& MSG_OBJ_STATUS_MASK ∧
    (0x280 &&& UDMA.not32 MSG_OBJ_USE_DIR_FILTER) &&& MSG_OBJ_STATUS_MASK
      = 0x280 &&& MSG_OBJ_STATUS_MASK :=
  ⟨by decide, status_mask_only_status.2.2.2.2 0x280 MSG_OBJ_USE_DIR_FILTER (by decide)⟩

end CAN

namespace UDMA

/-! ## Reading the parameters back from a control word -/

theorem srcInc_fields : ∀ s ∈ validSrcIncrements,
    s &&& 0x33000000 = 0 ∧ s &&& 0x0C000000 = s ∧ s &&& 0xC0000000 = 0 ∧
    s &&& 0x0003C000 = 0 := by decide

theorem dstInc_fields : ∀ d ∈ validDstIncrements,
    d &&& 0x33000000 = 0 ∧ d &&& 0x0C000000 = 0 ∧ d &&& 0xC0000000 = d ∧
    d &&& 0x0003C000 = 0 := by decide

theorem itemSize_fields : ∀ z ∈ validItemSizes,
    z &&& 0x33000000 = z ∧ z &&& 0x0C000000 = 0 ∧ z &&& 0xC0000000 = 0 ∧
    z &&& 0x0003C000 = 0 := by decide

theorem arbSize_fields : ∀ a ∈ validArbSizes,
    a &&& 0x33000000 = 0 ∧ a &&& 0x0C000000 = 0 ∧ a &&& 0xC0000000 = 0 ∧
    a &&& 0x0003C000 = a := by decide

theorem mode_fields : ∀ m ∈ validModes,
    (if m = UDMA_MODE_MEM_SCATTER_GATHER ∨ m = UDMA_MODE_PER_SCATTER_GATHER
      then m ||| UDMA_MODE_ALT_SELECT else m) &&& 0x33000000 = 0 ∧
    (if m = UDMA_MODE_MEM_SCATTER_GATHER ∨ m = UDMA_MODE_PER_SCATTER_GATHER
      then m ||| UDMA_MODE_ALT_SELECT else m) &&& 0x0C000000 = 0 ∧
    (if m = UDMA_MODE_MEM_SCATTER_GATHER ∨ m = UDMA_MODE_PER_SCATTER_GATHER
      then m ||| UDMA_MODE_ALT_SELECT else m) &&& 0xC0000000 = 0 ∧
    (if m = UDMA_MODE_MEM_SCATTER_GATHER ∨ m = UDMA_MODE_PER_SCATTER_GATHER
      then m ||| UDMA_MODE_ALT_SELECT else m) &&& 0x0003C000 = 0 ∧
    modeOfField ((if m = UDMA_MODE_MEM_SCATTER_GATHER ∨ m = UDMA_MODE_PER_SCATTER_GATHER
      then m ||| UDMA_MODE_ALT_SELECT else m) &&& 7) = m := by decide

theorem countField_high {c : Nat} (h1 : 1 ≤ c) (h2 : c ≤ 1024) {M : Nat}
    (hM : 0x3FFF &&& M = 0) : shl32 (sub32 c 1) 4 &&& M = 0 := by
  rw [countField_eq h1 h2]
  have hlt : (c - 1) * 16 < 2 ^ 14 := by norm_num; omega
  have h3 : (0x3FFF : Nat) = 2 ^ 14 - 1 := by norm_num
  have hx : (c - 1) * 16 &&& 0x3FFF = (c - 1) * 16 := by
    rw [h3]
    exact Nat.and_pow_two_sub_one_of_lt_two_pow hlt
  calc (c - 1) * 16 &&& M = ((c - 1) * 16 &&& 0x3FFF) &&& M := by rw [hx]
    _ = (c - 1) * 16 &&& (0x3FFF &&& M) := Nat.and_assoc _ _ _
    _ = 0 := by rw [hM, Nat.and_zero]

theorem decodeControl_entry (count itemSize srcInc srcStart dstInc dstStart arb mode : Nat)
    (hc1 : 1 ≤ count) (hc2 : count ≤ 1024)
    (hz : itemSize ∈ validItemSizes) (hs : srcInc ∈ validSrcIncrements)
    (hd : dstInc ∈ validDstIncrements) (ha : arb ∈ validArbSizes) (hm : mode ∈ validModes) :
    decodeControl
      (uDMATaskStructEntry count itemSize srcInc srcStart dstInc dstStart arb mode).ulControl
      = (count, itemSize, srcInc, dstInc, arb, mode) := by
  obtain ⟨s1, s2, s3, s4⟩ := srcInc_fields _ hs
  obtain ⟨d1, d2, d3, d4⟩ := dstInc_fields _ hd
  obtain ⟨z1, z2, z3, z4⟩ := itemSize_fields _ hz
  obtain ⟨a1, a2, a3, a4⟩ := arbSize_fields _ ha
  obtain ⟨m1, m2, m3, m4, m5⟩ := mode_fields _ hm
  have c1 := countField_high hc1 hc2 (M := 0x33000000) (by decide)
  have c2 := countField_high hc1 hc2 (M := 0x0C000000) (by decide)
  have c3 := countField_high hc1 hc2 (M := 0xC0000000) (by decide)
  have c4 := countField_high hc1 hc2 (M := 0x0003C000) (by decide)
  simp only [uDMATaskStructEntry, decodeControl, Nat.and_distrib_right, field_or,
    s1, s2, s3, s4, d1, d2, d3, d4, z1, z2, z3, z4, a1, a2, a3, a4, m1, m2, m3, m4, m5,
    c1, c2, c3, c4, srcInc_clear_of_count _ hs, dstInc_clear_of_count _ hd,
    itemSize_clear_of_count _ hz, arbSize_clear_of_count _ ha, mode_clear_of_count _ hm,
    countField_extract hc1 hc2, srcInc_clear_of_mode _ hs, dstInc_clear_of_mode _ hd,
    itemSize_clear_of_mode _ hz, arbSize_clear_of_mode _ ha, shl32_four_low _ 7 (by norm_num),
    Nat.zero_or, Nat.or_zero, Nat.sub_add_cancel hc1]

/-- C20: over valid inputs the control word determines the parameters: the
count, item size, increments, arbitration size and mode are read back from the
fields of the control word (the mode after the alternate-select bit of the
scatter-gather modes is taken off), so two valid parameter tuples with the
same control word are equal.  The start addresses play no part. -/
theorem uDMATaskStructEntry_control_injective
    (count itemSize srcInc srcStart dstInc dstStart arb mode : Nat)
    (count2 itemSize2 srcInc2 srcStart2 dstInc2 dstStart2 arb2 mode2 : Nat)
    (hc1 : 1 ≤ count) (hc2 : count ≤ 1024)
    (hz : itemSize ∈ validItemSizes) (hs : srcInc ∈ validSrcIncrements)
    (hd : dstInc ∈ validDstIncrements) (ha : arb ∈ validArbSizes) (hm : mode ∈ validModes)
    (kc1 : 1 ≤ count2) (kc2 : count2 ≤ 1024)
    (kz : itemSize2 ∈ validItemSizes) (ks : srcInc2 ∈ validSrcIncrements)
    (kd : dstInc2 ∈ validDstIncrements) (ka : arb2 ∈ validArbSizes) (km : mode2 ∈ validModes)
    (heq : (uDMATaskStructEntry count itemSize srcInc srcStart dstInc dstStart arb
        mode).ulControl
      = (uDMATaskStructEntry count2 itemSize2 srcInc2 srcStart2 dstInc2 dstStart2 arb2
        mode2).ulControl) :
    decodeControl
      (uDMATaskStructEntry count itemSize srcInc srcStart dstInc dstStart arb mode).ulControl
      = (count, itemSize, srcInc, dstInc, arb, mode) ∧
    (count, itemSize, srcInc, dstInc, arb, mode)
      = (count2, itemSize2, srcInc2, dstInc2, arb2, mode2) := by
  have e1 := decodeControl_entry count itemSize srcInc srcStart dstInc dstStart arb mode
    hc1 hc2 hz hs hd ha hm
  have e2 := decodeControl_entry count2 itemSize2 srcInc2 srcStart2 dstInc2 dstStart2 arb2
    mode2 kc1 kc2 kz ks kd ka km
  refine ⟨e1, ?_⟩
  rw [← e1, ← e2, heq]

/-- Witness for C20: the same parameters with different start addresses give
the same control word. -/
theorem uDMATaskStructEntry_control_injective_witness :
    decodeControl
      (uDMATaskStructEntry 1024 UDMA_SIZE_16 UDMA_SRC_INC_16 0x20000000 UDMA_DST_INC_NONE
        0x4000C000 UDMA_ARB_1024 UDMA_MODE_PER_SCATTER_GATHER).ulControl
      = (1024, UDMA_SIZE_16, UDMA_SRC_INC_16, UDMA_DST_INC_NONE, UDMA_ARB_1024,
          UDMA_MODE_PER_SCATTER_GATHER) ∧
    (1024, UDMA_SIZE_16, UDMA_SRC_INC_16, UDMA_DST_INC_NONE, UDMA_ARB_1024,
        UDMA_MODE_PER_SCATTER_GATHER)
      = (1024, UDMA_SIZE_16, UDMA_SRC_INC_16, UDMA_DST_INC_NONE, UDMA_ARB_1024,
        UDMA_MODE_PER_SCATTER_GATHER) :=
  uDMATaskStructEntry_control_injective
    1024 UDMA_SIZE_16 UDMA_SRC_INC_16 0x20000000 UDMA_DST_INC_NONE 0x4000C000 UDMA_ARB_1024
    UDMA_MODE_PER_SCATTER_GATHER
    1024 UDMA_SIZE_16 UDMA_SRC_INC_16 0x20002000 UDMA_DST_INC_NONE 0x4000D000 UDMA_ARB_1024
    UDMA_MODE_PER_SCATTER_GATHER
    (by decide) (by decide) (by decide) (by decide) (by decide) (by decide) (by decide)
    (by decide) (by decide) (by decide) (by decide) (by decide) (by decide) (by decide)
    (by decide)

end UDMA

namespace UDMA

/-! ## Out-of-range counts, offset bounds, width encodings -/

/-- C21: a count above 1024 spills into the arbitration field: whatever the
other parameters, count 1025 with `UDMA_ARB_1` gives the control word of the
valid input count 1 with `UDMA_ARB_2`, a different arbitration size. -/
theorem uDMATaskStructEntry_count_spills_into_arb
    (itemSize srcInc srcStart dstInc dstStart mode : Nat) :
    1024 < 1025 ∧ UDMA_ARB_1 ≠ UDMA_ARB_2 ∧ UDMA_ARB_2 ∈ validArbSizes ∧
    (uDMATaskStructEntry 1025 itemSize srcInc srcStart dstInc dstStart UDMA_ARB_1
      mode).ulControl
      = (uDMATaskStructEntry 1 itemSize srcInc srcStart dstInc dstStart UDMA_ARB_2
        mode).ulControl := by
  refine ⟨by decide, by decide, by decide, ?_⟩
  have h1 : shl32 (sub32 1025 1) 4 = UDMA_ARB_2 := by decide
  have h2 : shl32 (sub32 1 1) 4 = UDMA_ARB_1 := by decide
  simp only [uDMATaskStructEntry, h1, h2]
  rw [Nat.or_assoc (srcInc ||| dstInc ||| itemSize) UDMA_ARB_1 UDMA_ARB_2,
    Nat.or_assoc (srcInc ||| dstInc ||| itemSize) UDMA_ARB_2 UDMA_ARB_1,
    Nat.or_comm UDMA_ARB_1 UDMA_ARB_2]

theorem srcInc_shift_cases : ∀ s ∈ validSrcIncrements,
    s = UDMA_SRC_INC_NONE ∨ (s ≠ UDMA_SRC_INC_NONE ∧ s >>> 26 ≤ 2) := by decide

theorem dstInc_shift_cases : ∀ d ∈ validDstIncrements,
    d = UDMA_DST_INC_NONE ∨ (d ≠ UDMA_DST_INC_NONE ∧ d >>> 30 ≤ 2) := by decide

theorem scaled_count_le {c k : Nat} (h2 : c ≤ 1024) (hk : k ≤ 2) : c * 2 ^ k ≤ 4096 := by
  have hp : 2 ^ k ≤ 2 ^ 2 := Nat.pow_le_pow_right (by norm_num) hk
  calc c * 2 ^ k ≤ 1024 * 2 ^ 2 := Nat.mul_le_mul h2 hp
    _ = 4096 := by norm_num

theorem srcEndOffset_le {count srcInc : Nat} (hc1 : 1 ≤ count) (hc2 : count ≤ 1024)
    (hs : srcInc ∈ validSrcIncrements) : srcEndOffset count srcInc ≤ 4095 := by
  rcases srcInc_shift_cases _ hs with h | ⟨h, hk⟩
  · simp [srcEndOffset, h]
  · have hb := scaled_count_le hc2 hk
    simp only [srcEndOffset, if_neg h, endOffset_eq hc1 hc2 hk]
    omega

theorem dstEndOffset_le {count dstInc : Nat} (hc1 : 1 ≤ count) (hc2 : count ≤ 1024)
    (hd : dstInc ∈ validDstIncrements) : dstEndOffset count dstInc ≤ 4095 := by
  rcases dstInc_shift_cases _ hd with h | ⟨h, hk⟩
  · simp [dstEndOffset, h]
  · have hb := scaled_count_le hc2 hk
    simp only [dstEndOffset, if_neg h, endOffset_eq hc1 hc2 hk]
    omega

theorem srcEnd_offset (count itemSize srcInc srcStart dstInc dstStart arb mode : Nat) :
    (uDMATaskStructEntry count itemSize srcInc srcStart dstInc dstStart arb mode).pvSrcEndAddr
      = if srcInc = UDMA_SRC_INC_NONE then srcStart
        else byteIndex srcStart (srcEndOffset count srcInc) := by
  by_cases h : srcInc = UDMA_SRC_INC_NONE
  · simp [uDMATaskStructEntry, h]
  · simp only [uDMATaskStructEntry, srcEndOffset, if_neg h]

theorem dstEnd_offset (count itemSize srcInc srcStart dstInc dstStart arb mode : Nat) :
    (uDMATaskStructEntry count itemSize srcInc srcStart dstInc dstStart arb mode).pvDstEndAddr
      = if dstInc = UDMA_DST_INC_NONE then dstStart
        else byteIndex dstStart (dstEndOffset count dstInc) := by
  by_cases h : dstInc = UDMA_DST_INC_NONE
  · simp [uDMATaskStructEntry, h]
  · simp only [uDMATaskStructEntry, dstEndOffset, if_neg h]

theorem end_of_start_offset {start off e : Nat} (ho : off ≤ 4095)
    (hw : start + 4095 < 4294967296)
    (he : e = if off = 0 then start else byteIndex start off) :
    e = start + off ∧ start ≤ e ∧ e ≤ start + 4095 := by
  have hmod : byteIndex start off = start + off := by
    unfold byteIndex ULONG_RANGE
    exact Nat.mod_eq_of_lt (by omega)
  by_cases h0 : off = 0
  · rw [if_pos h0] at he
    omega
  · rw [if_neg h0, hmod] at he
    omega

/-- C22: for a count in [1,1024] and every increment encoding (8, 16, 32 bits
or none) the byte offset that the entry initialiser adds to a start address is
at most 4095; the end address is the start address moved by that offset in the
32-bit address space, and when `start + 4095 < 2 ^ 32` it is `start + offset`
itself, not below the start address and at most `start + 4095`. -/
theorem uDMATaskStructEntry_offset_bound
    (count itemSize srcInc srcStart dstInc dstStart arb mode : Nat)
    (hc1 : 1 ≤ count) (hc2 : count ≤ 1024)
    (hs : srcInc ∈ validSrcIncrements) (hd : dstInc ∈ validDstIncrements) :
    (0 ≤ srcEndOffset count srcInc ∧ srcEndOffset count srcInc ≤ 4095) ∧
    (0 ≤ dstEndOffset count dstInc ∧ dstEndOffset count dstInc ≤ 4095) ∧
    (uDMATaskStructEntry count itemSize srcInc srcStart dstInc dstStart arb mode).pvSrcEndAddr
      = (if srcInc = UDMA_SRC_INC_NONE then srcStart
          else byteIndex srcStart (srcEndOffset count srcInc)) ∧
    (uDMATaskStructEntry count itemSize srcInc srcStart dstInc dstStart arb mode).pvDstEndAddr
      = (if dstInc = UDMA_DST_INC_NONE then dstStart
          else byteIndex dstStart (dstEndOffset count dstInc)) ∧
    (srcStart + 4095 < 4294967296 →
      (uDMATaskStructEntry count itemSize srcInc srcStart dstInc dstStart arb
        mode).pvSrcEndAddr = srcStart + srcEndOffset count srcInc ∧
      srcStart ≤ (uDMATaskStructEntry count itemSize srcInc srcStart dstInc dstStart arb
        mode).pvSrcEndAddr ∧
      (uDMATaskStructEntry count itemSize srcInc srcStart dstInc dstStart arb
        mode).pvSrcEndAddr ≤ srcStart + 4095) ∧
    (dstStart + 4095 < 4294967296 →
      (uDMATaskStructEntry count itemSize srcInc srcStart dstInc dstStart arb
        mode).pvDstEndAddr = dstStart + dstEndOffset count dstInc ∧
      dstStart ≤ (uDMATaskStructEntry count itemSize srcInc srcStart dstInc dstStart arb
        mode).pvDstEndAddr ∧
      (uDMATaskStructEntry count itemSize srcInc srcStart dstInc dstStart arb
        mode).pvDstEndAddr ≤ dstStart + 4095) := by
  have hso := srcEndOffset_le hc1 hc2 hs
  have hdo := dstEndOffset_le hc1 hc2 hd
  have es := srcEnd_offset count itemSize srcInc srcStart dstInc dstStart arb mode
  have ed := dstEnd_offset count itemSize srcInc srcStart dstInc dstStart arb mode
  refine ⟨⟨Nat.zero_le _, hso⟩, ⟨Nat.zero_le _, hdo⟩, es, ed, ?_, ?_⟩
  · intro hw
    apply end_of_start_offset hso hw
    rw [es]
    by_cases h : srcInc = UDMA_SRC_INC_NONE
    · simp [srcEndOffset, h]
    · have hne : srcEndOffset count srcInc = 0 →
          byteIndex srcStart (srcEndOffset count srcInc) = srcStart := by
        intro h0
        rw [h0]
        unfold byteIndex ULONG_RANGE
        exact Nat.mod_eq_of_lt (by omega)
      by_cases h0 : srcEndOffset count srcInc = 0
      · rw [if_neg h, if_pos h0, hne h0]
      · rw [if_neg h, if_neg h0]
  · intro hw
    apply end_of_start_offset hdo hw
    rw [ed]
    by_cases h : dstInc = UDMA_DST_INC_NONE
    · simp [dstEndOffset, h]
    · have hne : dstEndOffset count dstInc = 0 →
          byteIndex dstStart (dstEndOffset count dstInc) = dstStart := by
        intro h0
        rw [h0]
        unfold byteIndex ULONG_RANGE
        exact Nat.mod_eq_of_lt (by omega)
      by_cases h0 : dstEndOffset count dstInc = 0
      · rw [if_neg h, if_pos h0, hne h0]
      · rw [if_neg h, if_neg h0]

/-- Witness for C22: 1024 words, the largest offset, from 0x20000000, to a
fixed destination address. -/
theorem uDMATaskStructEntry_offset_bound_witness :
    (0 ≤ srcEndOffset 1024 UDMA_SRC_INC_32 ∧ srcEndOffset 1024 UDMA_SRC_INC_32 ≤ 4095) ∧
    (0 ≤ dstEndOffset 1024 UDMA_DST_INC_NONE ∧ dstEndOffset 1024 UDMA_DST_INC_NONE ≤ 4095) ∧
    (uDMATaskStructEntry 1024 UDMA_SIZE_32 UDMA_SRC_INC_32 0x20000000 UDMA_DST_INC_NONE
      0x4000C000 UDMA_ARB_8 UDMA_MODE_BASIC).pvSrcEndAddr
      = (if UDMA_SRC_INC_32 = UDMA_SRC_INC_NONE then 0x20000000
          else byteIndex 0x20000000 (srcEndOffset 1024 UDMA_SRC_INC_32)) ∧
    (uDMATaskStructEntry 1024 UDMA_SIZE_32 UDMA_SRC_INC_32 0x20000000 UDMA_DST_INC_NONE
      0x4000C000 UDMA_ARB_8 UDMA_MODE_BASIC).pvDstEndAddr
      = (if UDMA_DST_INC_NONE = UDMA_DST_INC_NONE then 0x4000C000
          else byteIndex 0x4000C000 (dstEndOffset 1024 UDMA_DST_INC_NONE)) ∧
    (0x20000000 + 4095 < 4294967296 →
      (uDMATaskStructEntry 1024 UDMA_SIZE_32 UDMA_SRC_INC_32 0x20000000 UDMA_DST_INC_NONE
        0x4000C000 UDMA_ARB_8 UDMA_MODE_BASIC).pvSrcEndAddr
        = 0x20000000 + srcEndOffset 1024 UDMA_SRC_INC_32 ∧
      0x20000000 ≤ (uDMATaskStructEntry 1024 UDMA_SIZE_32 UDMA_SRC_INC_32 0x20000000
        UDMA_DST_INC_NONE 0x4000C000 UDMA_ARB_8 UDMA_MODE_BASIC).pvSrcEndAddr ∧
      (uDMATaskStructEntry 1024 UDMA_SIZE_32 UDMA_SRC_INC_32 0x20000000 UDMA_DST_INC_NONE
        0x4000C000 UDMA_ARB_8 UDMA_MODE_BASIC).pvSrcEndAddr ≤ 0x20000000 + 4095) ∧
    (0x4000C000 + 4095 < 4294967296 →
      (uDMATaskStructEntry 1024 UDMA_SIZE_32 UDMA_SRC_INC_32 0x20000000 UDMA_DST_INC_NONE
        0x4000C000 UDMA_ARB_8 UDMA_MODE_BASIC).pvDstEndAddr
        = 0x4000C000 + dstEndOffset 1024 UDMA_DST_INC_NONE ∧
      0x4000C000 ≤ (uDMATaskStructEntry 1024 UDMA_SIZE_32 UDMA_SRC_INC_32 0x20000000
        UDMA_DST_INC_NONE 0x4000C000 UDMA_ARB_8 UDMA_MODE_BASIC).pvDstEndAddr ∧
      (uDMATaskStructEntry 1024 UDMA_SIZE_32 UDMA_SRC_INC_32 0x20000000 UDMA_DST_INC_NONE
        0x4000C000 UDMA_ARB_8 UDMA_MODE_BASIC).pvDstEndAddr ≤ 0x4000C000 + 4095) :=
  uDMATaskStructEntry_offset_bound 1024 UDMA_SIZE_32 UDMA_SRC_INC_32 0x20000000
    UDMA_DST_INC_NONE 0x4000C000 UDMA_ARB_8 UDMA_MODE_BASIC
    (by decide) (by decide) (by decide) (by decide)

/-- C23: for each width 8, 16, 32 the item-size constant holds the same 2-bit
code in bits 24-25 and in bits 28-29, and that code, 0, 1, 2 in this order, is
both `UDMA_SRC_INC_w >> 26` and `UDMA_DST_INC_w >> 30`, the shift of the end
address, with `2 ^ code` the width in bytes; the two no-increment constants are
code 3 in the increment fields, not zero, and differ from every width
constant. -/
theorem width_encodings_consistent :
    widthTable.map (fun p => (p.1, p.2.1 >>> 24 &&& 3, p.2.1 >>> 28 &&& 3,
        p.2.2.1 >>> 26, p.2.2.2 >>> 30))
      = [(8, 0, 0, 0, 0), (16, 1, 1, 1, 1), (32, 2, 2, 2, 2)] ∧
    (∀ p ∈ widthTable, 2 ^ (p.2.2.1 >>> 26) = p.1 / 8 ∧ 2 ^ (p.2.2.2 >>> 30) = p.1 / 8 ∧
      p.2.1 &&& 0x33000000 = p.2.1 ∧ p.2.2.1 &&& 0x0C000000 = p.2.2.1 ∧
      p.2.2.2 &&& 0xC0000000 = p.2.2.2) ∧
    UDMA_SRC_INC_NONE >>> 26 = 3 ∧ UDMA_DST_INC_NONE >>> 30 = 3 ∧
    UDMA_SRC_INC_NONE &&& 0x0C000000 = UDMA_SRC_INC_NONE ∧
    UDMA_DST_INC_NONE &&& 0xC0000000 = UDMA_DST_INC_NONE ∧
    UDMA_SRC_INC_NONE ≠ 0 ∧ UDMA_DST_INC_NONE ≠ 0 ∧
    (∀ p ∈ widthTable, p.2.2.1 ≠ UDMA_SRC_INC_NONE ∧ p.2.2.2 ≠ UDMA_DST_INC_NONE ∧
      p.2.2.1 >>> 26 ≠ 3 ∧ p.2.2.2 >>> 30 ≠ 3) := by decide

end UDMA

namespace MPU

/-! ## Region flags -/

/-- C24: the 28 region-size flags, in the order of the header, are
`(k - 1) << 1` for the sizes `2 ^ k` bytes, `k` from 5 to 32; for each,
`2 ^ ((flag >> 1) + 1)` is the number of bytes in its name, and both the sizes
and the flags increase strictly along the table. -/
theorem rgnSize_encodes_log2 :
    rgnSizeTable.length = 28 ∧
    rgnSizeTable = (List.range 28).map (fun i => (2 ^ (i + 5), (i + 5 - 1) <<< 1)) ∧
    (∀ p ∈ rgnSizeTable, 2 ^ ((p.2 >>> 1) + 1) = p.1) ∧
    rgnSizeTable.Pairwise (fun a b => a.1 < b.1 ∧ a.2 < b.2) := by decide

theorem and_of_within {x m1 m2 : Nat} (hx : x &&& m1 = x) (hm : m1 &&& m2 = 0) :
    x &&& m2 = 0 := by
  calc x &&& m2 = (x &&& m1) &&& m2 := by rw [hx]
    _ = x &&& (m1 &&& m2) := Nat.and_assoc _ _ _
    _ = 0 := by rw [hm, Nat.and_zero]

/-- C25: every region-size flag lies within 0x3E, every enable flag within
0x1, every sub-region disable flag within 0xFF00 (flag `k` is `0x100 << k`) and
every permission flag within 0x17000000, and these four masks are pairwise
disjoint; hence from the OR of a size word, an enable word, a sub-region word
and a permission word, each within its mask, the four words are read back by
masking. -/
theorem rgn_flag_groups_disjoint (size en sub perm : Nat)
    (hsize : size &&& 0x3E = size) (hen : en &&& 0x1 = en)
    (hsub : sub &&& 0xFF00 = sub) (hperm : perm &&& 0x17000000 = perm) :
    ((∀ f ∈ rgnSizeFlags, f &&& 0x3E = f) ∧ (∀ f ∈ rgnEnableFlags, f &&& 0x1 = f) ∧
      (∀ f ∈ subRgnFlags, f &&& 0xFF00 = f) ∧ (∀ f ∈ rgnPermFlags, f &&& 0x17000000 = f)) ∧
    subRgnFlags = (List.range 8).map (fun k => 0x100 <<< k) ∧
    [(0x3E : Nat), 0x1, 0xFF00, 0x17000000].Pairwise (fun a b => a &&& b = 0) ∧
    (size ||| en ||| sub ||| perm) &&& 0x3E = size ∧
    (size ||| en ||| sub ||| perm) &&& 0x1 = en ∧
    (size ||| en ||| sub ||| perm) &&& 0xFF00 = sub ∧
    (size ||| en ||| sub ||| perm) &&& 0x17000000 = perm := by
  refine ⟨by decide, by decide, by decide, ?_, ?_, ?_, ?_⟩
  · rw [Nat.and_distrib_right, Nat.and_distrib_right, Nat.and_distrib_right, hsize,
      and_of_within hen (by decide), and_of_within hsub (by decide),
      and_of_within hperm (by decide)]
    simp
  · rw [Nat.and_distrib_right, Nat.and_distrib_right, Nat.and_distrib_right, hen,
      and_of_within hsize (by decide), and_of_within hsub (by decide),
      and_of_within hperm (by decide)]
    simp
  · rw [Nat.and_distrib_right, Nat.and_distrib_right, Nat.and_distrib_right, hsub,
      and_of_within hsize (by decide), and_of_within hen (by decide),
      and_of_within hperm (by decide)]
    simp
  · rw [Nat.and_distrib_right, Nat.and_distrib_right, Nat.and_distrib_right, hperm,
      and_of_within hsize (by decide), and_of_within hen (by decide),
      and_of_within hsub (by decide)]
    simp

/-- Witness for C25: an enabled 4 KB region with sub-region 3 disabled, no
execute, read-only for both modes. -/
theorem rgn_flag_groups_disjoint_witness :
    ((∀ f ∈ rgnSizeFlags, f &&& 0x3E = f) ∧ (∀ f ∈ rgnEnableFlags, f &&& 0x1 = f) ∧
      (∀ f ∈ subRgnFlags, f &&& 0xFF00 = f) ∧ (∀ f ∈ rgnPermFlags, f &&& 0x17000000 = f)) ∧
    subRgnFlags = (List.range 8).map (fun k => 0x100 <<< k) ∧
    [(0x3E : Nat), 0x1, 0xFF00, 0x17000000].Pairwise (fun a b => a &&& b = 0) ∧
    (MPU_RGN_SIZE_4K ||| MPU_RGN_ENABLE ||| MPU_SUB_RGN_DISABLE_3 |||
      (MPU_RGN_PERM_NOEXEC ||| MPU_RGN_PERM_PRV_RO_USR_RO)) &&& 0x3E = MPU_RGN_SIZE_4K ∧
    (MPU_RGN_SIZE_4K ||| MPU_RGN_ENABLE ||| MPU_SUB_RGN_DISABLE_3 |||
      (MPU_RGN_PERM_NOEXEC ||| MPU_RGN_PERM_PRV_RO_USR_RO)) &&& 0x1 = MPU_RGN_ENABLE ∧
    (MPU_RGN_SIZE_4K ||| MPU_RGN_ENABLE ||| MPU_SUB_RGN_DISABLE_3 |||
      (MPU_RGN_PERM_NOEXEC ||| MPU_RGN_PERM_PRV_RO_USR_RO)) &&& 0xFF00
        = MPU_SUB_RGN_DISABLE_3 ∧
    (MPU_RGN_SIZE_4K ||| MPU_RGN_ENABLE ||| MPU_SUB_RGN_DISABLE_3 |||
      (MPU_RGN_PERM_NOEXEC ||| MPU_RGN_PERM_PRV_RO_USR_RO)) &&& 0x17000000
        = MPU_RGN_PERM_NOEXEC ||| MPU_RGN_PERM_PRV_RO_USR_RO :=
  rgn_flag_groups_disjoint MPU_RGN_SIZE_4K MPU_RGN_ENABLE MPU_SUB_RGN_DISABLE_3
    (MPU_RGN_PERM_NOEXEC ||| MPU_RGN_PERM_PRV_RO_USR_RO)
    (by decide) (by decide) (by decide) (by decide)

end MPU
